import Mathlib

/-!
# YouMeet: registration, login and booking services

A shallow embedding of the Go sources

* `internal/core/domain/{user,auth,appointment}`   (records and repository interfaces)
* `internal/adapters/repositories`                 (repositories over a `DBClient`)
* `internal/core/services/{auth,booking}_service`  (the two services)

Conventions of the embedding.

* A Go `error` is its message; `Option Error` is a possibly-nil error.
* A Go pointer result `*T` is an `Option T` (`none` is `nil`); a Go result pair
  `(*T, error)` is a pair of options, because the code does return a non-nil
  pointer together with a non-nil error.
* Services and repositories are stateless; the mutable world is threaded
  explicitly: the store behind the repositories, the log of repository calls,
  and the number of identifiers and clock readings drawn so far.
* `uuid.New`, `time.Now`, `bcrypt` and `time.Parse` belong to libraries outside
  the repository; their outcomes are supplied by an environment `Env`.
-/

namespace YouMeet

/-- A Go `error`, identified with its message (`errors.New msg`). -/
abbrev Error := String

/-- Go `uuid.UUID`: sixteen bytes, read as a number; `val = 0` is the zero value. -/
structure UUID where
  val : Nat
  deriving DecidableEq, Repr

/-- The zero value of `uuid.UUID`. -/
def UUID.Nil : UUID := ⟨0⟩

/-- Lower-case hexadecimal digit of `n % 16`. -/
def hexDigit (n : Nat) : Char :=
  if n % 16 < 10 then Char.ofNat (48 + n % 16) else Char.ofNat (87 + n % 16)

/-- The `i`-th of the 32 hexadecimal digits of an identifier, most significant first. -/
def UUID.nibble (u : UUID) (i : Nat) : Char :=
  hexDigit (u.val / 16 ^ (31 - i))

/-- Go `uuid.UUID.String`: the form `xxxxxxxx-xxxx-xxxx-xxxx-xxxxxxxxxxxx`. -/
def UUID.String (u : UUID) : String :=
  String.mk
    (((List.range 8).map u.nibble) ++ '-' ::
     ((List.range 4).map fun i => u.nibble (8 + i)) ++ '-' ::
     ((List.range 4).map fun i => u.nibble (12 + i)) ++ '-' ::
     ((List.range 4).map fun i => u.nibble (16 + i)) ++ '-' ::
     ((List.range 12).map fun i => u.nibble (20 + i)))

/-- Go `time.Time`, as civil fields and an offset from UTC in seconds. -/
structure Time where
  year : Nat
  month : Nat
  day : Nat
  hour : Nat
  minute : Nat
  second : Nat
  nanosecond : Nat
  offset : Int
  deriving DecidableEq, Repr

/-- The zero value of `time.Time`: January 1, year 1, 00:00:00 UTC. -/
def Time.zero : Time := ⟨1, 1, 1, 0, 0, 0, 0, 0⟩

/-! ## Domain records (`internal/core/domain`) -/

/-- Go `user.User`. -/
structure User where
  ID : UUID
  Name : String
  Email : String
  PasswordHash : String
  Role : String
  CreatedAt : Time
  deriving DecidableEq, Repr

/-- The zero value of `user.User` (`var u user.User`). -/
def User.zero : User := ⟨UUID.Nil, "", "", "", "", Time.zero⟩

/-- Go `user.Company`; the field `User` is the association record embedded by value. -/
structure Company where
  ID : UUID
  UserID : UUID
  Name : String
  CreatedAt : Time
  User : User
  deriving DecidableEq, Repr

/-- Go `user.Professional`; `CompanyID` and `Company` are pointers in the source. -/
structure Professional where
  ID : UUID
  UserID : UUID
  Name : String
  CompanyID : Option UUID
  CreatedAt : Time
  User : User
  Company : Option Company
  deriving DecidableEq, Repr

/-- Go `appointment.Appointment`. -/
structure Appointment where
  ID : UUID
  ClientID : UUID
  ProfessionalID : UUID
  ServiceID : UUID
  StartTime : Time
  EndTime : Time
  Status : String
  CreatedAt : Time
  deriving DecidableEq, Repr

/-- Go `auth.AuthRequest`. -/
structure AuthRequest where
  Email : String
  Password : String
  deriving DecidableEq, Repr

/-- Go `auth.AuthResponse`; `User` is a pointer in the source. -/
structure AuthResponse where
  Token : String
  User : Option User
  deriving DecidableEq, Repr

/-- Go `auth.RegisterRequest`. -/
structure RegisterRequest where
  Name : String
  Email : String
  Password : String
  Role : String
  deriving DecidableEq, Repr

/-! ## Repository interfaces (`internal/core/domain/*/repository.go`)

Only the methods the two services call are embedded. A method reads the store
`σ`; a creating method also returns the store it leaves behind. The record a
create method is given is read, not modified. -/

/-- Go `user.UserRepository`. -/
structure UserRepository (σ : Type) where
  Create : σ → User → Option Error × σ
  GetByEmail : σ → String → Option User × Option Error

/-- Go `user.CompanyRepository`. -/
structure CompanyRepository (σ : Type) where
  CreateCompany : σ → Company → Option Error × σ

/-- Go `user.ProfessionalRepository`. -/
structure ProfessionalRepository (σ : Type) where
  CreateProfessional : σ → Professional → Option Error × σ

/-- Go `appointment.Repository`. -/
structure Repository (σ : Type) where
  CreateAppointment : σ → Appointment → Option Error × σ
  ListAppointments : σ → UUID → List Appointment × Option Error
  ListByProfessional : σ → UUID → List Appointment × Option Error

/-! ## Storage client and repositories (`internal/adapters/repositories`) -/

/-- The `conds ...interface{}` the repositories pass: a query text with one
placeholder and its argument, a string or an identifier. -/
inductive Cond where
  | str (query : String) (arg : String)
  | id (query : String) (arg : UUID)
  deriving DecidableEq, Repr

/-- The values the repositories hand to `DBClient.Create`. -/
inductive Record where
  | User (u : User)
  | Company (c : Company)
  | Professional (p : Professional)
  | Appointment (a : Appointment)
  deriving DecidableEq, Repr

/-- Go `repositories.DBClient`, restricted to the calls the embedded repositories
make. `First` and `Find` write through their `dest` pointer, so each is given
per destination type and returns the content of `dest` after the call, `dest`
starting as the zero value (`var u user.User`, a nil slice). -/
structure DBClient (σ : Type) where
  Create : σ → Record → Option Error × σ
  FirstUser : σ → Cond → User × Option Error
  FindAppointment : σ → Cond → List Appointment × Option Error

namespace repositories

/-- Go `UserRepository.Create`. -/
def UserRepository.Create {σ : Type} (db : DBClient σ) (s : σ) (u : User) : Option Error × σ :=
  db.Create s (Record.User u)

/-- Go `UserRepository.GetByEmail`: `return &u, err`. The pointer is the address
of the local `u`, so it is never nil, whatever `First` reports. -/
def UserRepository.GetByEmail {σ : Type} (db : DBClient σ) (s : σ) (email : String) :
    Option User × Option Error :=
  let r := db.FirstUser s (Cond.str "email = ?" email)
  (some r.1, r.2)

/-- Go `NewUserRepository`. -/
def NewUserRepository {σ : Type} (db : DBClient σ) : YouMeet.UserRepository σ where
  Create := UserRepository.Create db
  GetByEmail := UserRepository.GetByEmail db

/-- Go `CompanyRepository.CreateCompany`. -/
def CompanyRepository.CreateCompany {σ : Type} (db : DBClient σ) (s : σ) (c : Company) :
    Option Error × σ :=
  db.Create s (Record.Company c)

/-- Go `NewCompanyRepository`. -/
def NewCompanyRepository {σ : Type} (db : DBClient σ) : YouMeet.CompanyRepository σ where
  CreateCompany := CompanyRepository.CreateCompany db

/-- Go `ProfessionalRepository.CreateProfessional`. -/
def ProfessionalRepository.CreateProfessional {σ : Type} (db : DBClient σ) (s : σ)
    (p : Professional) : Option Error × σ :=
  db.Create s (Record.Professional p)

/-- Go `NewProfessionalRepository`. -/
def NewProfessionalRepository {σ : Type} (db : DBClient σ) : YouMeet.ProfessionalRepository σ where
  CreateProfessional := ProfessionalRepository.CreateProfessional db

/-- Go `AppointmentRepository.CreateAppointment`. -/
def AppointmentRepository.CreateAppointment {σ : Type} (db : DBClient σ) (s : σ)
    (a : Appointment) : Option Error × σ :=
  db.Create s (Record.Appointment a)

/-- Go `AppointmentRepository.ListAppointments`. -/
def AppointmentRepository.ListAppointments {σ : Type} (db : DBClient σ) (s : σ)
    (clientID : UUID) : List Appointment × Option Error :=
  db.FindAppointment s (Cond.id "client_id = ?" clientID)

/-- Go `AppointmentRepository.ListByProfessional`. -/
def AppointmentRepository.ListByProfessional {σ : Type} (db : DBClient σ) (s : σ)
    (professionalID : UUID) : List Appointment × Option Error :=
  db.FindAppointment s (Cond.id "professional_id = ?" professionalID)

/-- Go `NewAppointmentRepository`. -/
def NewAppointmentRepository {σ : Type} (db : DBClient σ) : YouMeet.Repository σ where
  CreateAppointment := AppointmentRepository.CreateAppointment db
  ListAppointments := AppointmentRepository.ListAppointments db
  ListByProfessional := AppointmentRepository.ListByProfessional db

end repositories

/-! ## The world the services run in -/

/-- Outcomes of the library calls the services make. `uuidNew n` and
`timeNow n` are the results of the `n`-th call of `uuid.New` and `time.Now`
in the process; `GenerateFromPassword` and `CompareHashAndPassword` are the
`bcrypt` functions (the cost argument is the constant `bcrypt.DefaultCost`);
`Parse` is `time.Parse(time.RFC3339, ·)`. -/
structure Env where
  uuidNew : Nat → UUID
  timeNow : Nat → Time
  GenerateFromPassword : String → Except Error String
  CompareHashAndPassword : String → String → Option Error
  Parse : String → Except Error Time

/-- A call a service makes on one of its repositories, with its argument. -/
inductive Call where
  | GetByEmail (email : String)
  | Create (u : User)
  | CreateCompany (c : Company)
  | CreateProfessional (p : Professional)
  | CreateAppointment (a : Appointment)
  | ListAppointments (clientID : UUID)
  | ListByProfessional (professionalID : UUID)
  deriving DecidableEq, Repr

/-- The mutable world: the store behind the repositories, the repository calls
made so far (oldest first), and how many identifiers and clock readings have
been drawn. -/
structure World (σ : Type) where
  store : σ
  calls : List Call
  uuids : Nat
  ticks : Nat

namespace World

/-- Go `uuid.New()`. -/
def uuidNew {σ : Type} (env : Env) (w : World σ) : UUID × World σ :=
  (env.uuidNew w.uuids, { w with uuids := w.uuids + 1 })

/-- Go `time.Now()`. -/
def timeNow {σ : Type} (env : Env) (w : World σ) : Time × World σ :=
  (env.timeNow w.ticks, { w with ticks := w.ticks + 1 })

/-- Go `userRepo.GetByEmail(ctx, email)`. -/
def GetByEmail {σ : Type} (r : UserRepository σ) (w : World σ) (email : String) :
    (Option User × Option Error) × World σ :=
  (r.GetByEmail w.store email, { w with calls := w.calls ++ [Call.GetByEmail email] })

/-- Go `userRepo.Create(ctx, u)`. -/
def Create {σ : Type} (r : UserRepository σ) (w : World σ) (u : User) : Option Error × World σ :=
  ((r.Create w.store u).1,
   { w with store := (r.Create w.store u).2, calls := w.calls ++ [Call.Create u] })

/-- Go `companyRepo.CreateCompany(ctx, company)`. -/
def CreateCompany {σ : Type} (r : CompanyRepository σ) (w : World σ) (c : Company) :
    Option Error × World σ :=
  ((r.CreateCompany w.store c).1,
   { w with store := (r.CreateCompany w.store c).2, calls := w.calls ++ [Call.CreateCompany c] })

/-- Go `profRepo.CreateProfessional(ctx, professional)`. -/
def CreateProfessional {σ : Type} (r : ProfessionalRepository σ) (w : World σ) (p : Professional) :
    Option Error × World σ :=
  ((r.CreateProfessional w.store p).1,
   { w with store := (r.CreateProfessional w.store p).2,
            calls := w.calls ++ [Call.CreateProfessional p] })

/-- Go `appointmentRepo.CreateAppointment(ctx, appt)`. -/
def CreateAppointment {σ : Type} (r : Repository σ) (w : World σ) (a : Appointment) :
    Option Error × World σ :=
  ((r.CreateAppointment w.store a).1,
   { w with store := (r.CreateAppointment w.store a).2,
            calls := w.calls ++ [Call.CreateAppointment a] })

/-- Go `appointmentRepo.ListAppointments(ctx, clientID)`. -/
def ListAppointments {σ : Type} (r : Repository σ) (w : World σ) (clientID : UUID) :
    (List Appointment × Option Error) × World σ :=
  (r.ListAppointments w.store clientID,
   { w with calls := w.calls ++ [Call.ListAppointments clientID] })

/-- Go `appointmentRepo.ListByProfessional(ctx, professionalID)`. -/
def ListByProfessional {σ : Type} (r : Repository σ) (w : World σ) (professionalID : UUID) :
    (List Appointment × Option Error) × World σ :=
  (r.ListByProfessional w.store professionalID,
   { w with calls := w.calls ++ [Call.ListByProfessional professionalID] })

end World

/-! ## Auth service (`internal/core/services/auth_service.go`) -/

/-- Go `services.AuthService`. -/
structure AuthService (σ : Type) where
  userRepo : UserRepository σ
  companyRepo : CompanyRepository σ
  profRepo : ProfessionalRepository σ

/-- Go `NewAuthService`. -/
def NewAuthService {σ : Type} (userRepo : UserRepository σ) (companyRepo : CompanyRepository σ)
    (profRepo : ProfessionalRepository σ) : AuthService σ :=
  { userRepo := userRepo, companyRepo := companyRepo, profRepo := profRepo }

/-- Go `AuthService.Register`. The result is the Go pair `(*user.User, error)`
and the world after the call. -/
def AuthService.Register {σ : Type} (s : AuthService σ) (env : Env) (w : World σ)
    (req : RegisterRequest) : (Option User × Option Error) × World σ :=
  let name := req.Name
  let email := req.Email
  let password := req.Password
  let role := req.Role
  let r0 := w.GetByEmail s.userRepo email
  match r0.1.1 with
  | some _ => ((none, some "usuário já existe"), r0.2)
  | none =>
    if role ≠ "client" ∧ role ≠ "company" ∧ role ≠ "professional" then
      ((none, some "role inválido"), r0.2)
    else
      match env.GenerateFromPassword password with
      | Except.error err => ((none, some err), r0.2)
      | Except.ok hashedPassword =>
        let r1 := r0.2.uuidNew env
        let r2 := r1.2.timeNow env
        let u : User :=
          { ID := r1.1, Name := name, Email := email, PasswordHash := hashedPassword,
            Role := role, CreatedAt := r2.1 }
        let r3 := r2.2.Create s.userRepo u
        match r3.1 with
        | some err => ((none, some err), r3.2)
        | none =>
          if role = "company" then
            let r4 := r3.2.uuidNew env
            let r5 := r4.2.timeNow env
            let company : Company :=
              { ID := r4.1, UserID := u.ID, Name := name, CreatedAt := r5.1, User := User.zero }
            let r6 := r5.2.CreateCompany s.companyRepo company
            ((some u, none), r6.2)
          else if role = "professional" then
            let r4 := r3.2.uuidNew env
            let r5 := r4.2.timeNow env
            let professional : Professional :=
              { ID := r4.1, UserID := u.ID, Name := name, CompanyID := none,
                CreatedAt := r5.1, User := User.zero, Company := none }
            let r6 := r5.2.CreateProfessional s.profRepo professional
            ((some u, none), r6.2)
          else
            ((some u, none), r3.2)

/-- What a call that may dereference a nil pointer does: it returns, or the
goroutine panics. -/
inductive Outcome (α : Type) where
  | returned (a : α)
  | panicked
  deriving DecidableEq, Repr

/-- Go `AuthService.Login`. The result is the Go pair `(*auth.AuthResponse, error)`;
`user.PasswordHash` dereferences the pointer the lookup returned. -/
def AuthService.Login {σ : Type} (s : AuthService σ) (env : Env) (w : World σ)
    (req : AuthRequest) : Outcome (Option AuthResponse × Option Error) × World σ :=
  let email := req.Email
  let password := req.Password
  let r0 := w.GetByEmail s.userRepo email
  match r0.1.2 with
  | some _ => (Outcome.returned (none, some "credenciais inválidas"), r0.2)
  | none =>
    match r0.1.1 with
    | none => (Outcome.panicked, r0.2)
    | some user =>
      match env.CompareHashAndPassword user.PasswordHash password with
      | some _ => (Outcome.returned (none, some "credenciais inválidas"), r0.2)
      | none =>
        let r1 := r0.2.uuidNew env
        let token := r1.1.String
        (Outcome.returned (some { Token := token, User := some user }, none), r1.2)

/-- Go `AuthService.ValidateToken`. -/
def AuthService.ValidateToken {σ : Type} (_s : AuthService σ) (_token : String) :
    Option User × Option Error :=
  (none, some "token inválido")

/-! ## Booking service (`internal/core/services/booking_service.go`) -/

/-- Go `services.BookingService`; the service repository is never called by the
embedded methods and is left out. -/
structure BookingService (σ : Type) where
  appointmentRepo : Repository σ

/-- Go `BookingService.BookAppointment`. The result is the Go pair
`(*appointment.Appointment, error)` and the world after the call. -/
def BookingService.BookAppointment {σ : Type} (s : BookingService σ) (env : Env) (w : World σ)
    (serviceID clientID : UUID) (startTimeStr : String) :
    (Option Appointment × Option Error) × World σ :=
  match env.Parse startTimeStr with
  | Except.error err => ((none, some err), w)
  | Except.ok startTime =>
    let r1 := w.uuidNew env
    let r2 := r1.2.timeNow env
    let appt : Appointment :=
      { ID := r1.1, ClientID := clientID, ProfessionalID := UUID.Nil, ServiceID := serviceID,
        StartTime := startTime, EndTime := Time.zero, Status := "scheduled", CreatedAt := r2.1 }
    let r3 := r2.2.CreateAppointment s.appointmentRepo appt
    match r3.1 with
    | some err => ((none, some err), r3.2)
    | none => ((some appt, none), r3.2)

/-- Go `BookingService.GetAppointments`. -/
def BookingService.GetAppointments {σ : Type} (s : BookingService σ) (w : World σ)
    (clientID : UUID) : (List Appointment × Option Error) × World σ :=
  w.ListAppointments s.appointmentRepo clientID

/-- Go `BookingService.GetAppointmentsByProfessional`. -/
def BookingService.GetAppointmentsByProfessional {σ : Type} (s : BookingService σ) (w : World σ)
    (professionalID : UUID) : (List Appointment × Option Error) × World σ :=
  w.ListByProfessional s.appointmentRepo professionalID

/-! ## An in-memory storage client

The storage engine is outside the repository. The client below keeps every
created record, in creation order, and answers `First` and `Find` with the
records matching the predicate; it can be told to refuse some records, which
stands for a constraint or connectivity failure of `Create`. -/

/-- The tables of the in-memory store. -/
structure Store where
  users : List User
  companies : List Company
  professionals : List Professional
  appointments : List Appointment
  deriving DecidableEq, Repr

/-- The store with no record. -/
def Store.empty : Store := ⟨[], [], [], []⟩

/-- The store with one more record in the table of its kind. -/
def Store.insert (s : Store) : Record → Store
  | Record.User u => { s with users := s.users ++ [u] }
  | Record.Company c => { s with companies := s.companies ++ [c] }
  | Record.Professional p => { s with professionals := s.professionals ++ [p] }
  | Record.Appointment a => { s with appointments := s.appointments ++ [a] }

/-- Whether a user row satisfies a condition (`email = ?`, `id = ?`). -/
def Cond.matchesUser : Cond → User → Bool
  | Cond.str query arg, u => decide (query = "email = ?") && decide (u.Email = arg)
  | Cond.id query arg, u => decide (query = "id = ?") && decide (u.ID = arg)

/-- Whether an appointment row satisfies a condition
(`client_id = ?`, `professional_id = ?`, `id = ?`). -/
def Cond.matchesAppointment : Cond → Appointment → Bool
  | Cond.str _ _, _ => false
  | Cond.id query arg, a =>
    (decide (query = "client_id = ?") && decide (a.ClientID = arg)) ||
    (decide (query = "professional_id = ?") && decide (a.ProfessionalID = arg)) ||
    (decide (query = "id = ?") && decide (a.ID = arg))

/-- The in-memory storage client. `Create` refuses the records `refuses`
selects and keeps every other one; `First` yields the first matching row or
leaves the destination untouched and reports `record not found`; `Find`
yields all matching rows. -/
def Store.client (refuses : Record → Bool) : DBClient Store where
  Create := fun s r => if refuses r then (some "create failed", s) else (none, s.insert r)
  FirstUser := fun s c =>
    match (s.users.filter c.matchesUser).head? with
    | some u => (u, none)
    | none => (User.zero, some "record not found")
  FindAppointment := fun s c => (s.appointments.filter c.matchesAppointment, none)

/-- The in-memory storage client that keeps every created record. -/
def Store.keepAll : DBClient Store := Store.client (fun _ => false)

/-- The in-memory storage client whose `Create` fails on company and
professional records and keeps every other record. -/
def Store.refuseProfiles : DBClient Store :=
  Store.client fun r =>
    match r with
    | Record.Company _ => true
    | Record.Professional _ => true
    | _ => false

/-- A world over a given store in which no call has been made yet. -/
def World.init {σ : Type} (s : σ) : World σ :=
  { store := s, calls := [], uuids := 0, ticks := 0 }

/-! ## The library calls of the concrete runs

The theorems are stated for every environment. The closed runs below need one:
`time.Parse` is embedded after the Go library (package `time`, `format.go`, as
of Go 1.20), and `bcrypt` through hashes computed with the algorithm itself. -/

namespace time

/-- Value of a decimal digit character. -/
def digitVal (c : Char) : Option Nat :=
  if 48 ≤ c.toNat ∧ c.toNat ≤ 57 then some (c.toNat - 48) else none

/-- Value of a run of decimal digits, most significant first. -/
def digitsVal : List Char → Option Nat
  | [] => some 0
  | c :: cs =>
    match digitVal c, digitsVal cs with
    | some x, some y => some (x * 10 ^ cs.length + y)
    | _, _ => none

/-- Go `daysIn` of package `time`: the days of a month of a year. -/
def daysIn (year month : Nat) : Nat :=
  if month = 2 then
    if year % 4 = 0 ∧ (year % 100 ≠ 0 ∨ year % 400 = 0) then 29 else 28
  else if month = 4 ∨ month = 6 ∨ month = 9 ∨ month = 11 then 30
  else 31

/-- The bytes of the UTF-8 encoding of a code point. -/
def utf8Bytes (n : Nat) : List Nat :=
  if n < 128 then [n]
  else if n < 2048 then [192 + n / 64, 128 + n % 64]
  else if n < 65536 then [224 + n / 4096, 128 + n / 64 % 64, 128 + n % 64]
  else [240 + n / 262144, 128 + n / 4096 % 64, 128 + n / 64 % 64, 128 + n % 64]

/-- Go `quote` of package `time`, one character: a double quote and a
backslash are escaped with a backslash, a control or non-ASCII character is
written byte by byte as a hexadecimal escape. -/
def quoteChar (c : Char) : List Char :=
  if 128 ≤ c.toNat ∨ c.toNat < 32 then
    ((utf8Bytes c.toNat).map fun b =>
      [Char.ofNat 92, 'x', hexDigit (b / 16), hexDigit b]).flatten
  else if c.toNat = 34 ∨ c.toNat = 92 then [Char.ofNat 92, c]
  else [c]

/-- Go `quote` of package `time`. -/
def quote (s : List Char) : String :=
  String.mk (Char.ofNat 34 :: (s.map quoteChar).flatten ++ [Char.ofNat 34])

/-- Go `time.RFC3339`. -/
def RFC3339 : String := "2006-01-02T15:04:05Z07:00"

/-- Go `ParseError.Error` with an empty message: the element of the layout
that could not be matched and the value left at that point. -/
def parseErrorElem (value : String) (valueElem : List Char) (layoutElem : String) : Error :=
  "parsing time " ++ quote value.toList ++ " as " ++ quote RFC3339.toList ++
    ": cannot parse " ++ quote valueElem ++ " as " ++ quote layoutElem.toList

/-- Go `ParseError.Error` with a message. -/
def parseErrorMsg (value : String) (message : String) : Error :=
  "parsing time " ++ quote value.toList ++ message

/-- Go `getnum` of package `time`: a number of one or two leading digits, two
when `fixed`, and the rest of the value. -/
def getnum (s : List Char) (fixed : Bool) : Option (Nat × List Char) :=
  match s with
  | [] => none
  | a :: rest =>
    match digitVal a with
    | none => none
    | some x =>
      match rest with
      | [] => if fixed then none else some (x, rest)
      | b :: rest2 =>
        match digitVal b with
        | some y => some (10 * x + y, rest2)
        | none => if fixed then none else some (x, rest)

/-- Go `skip` of package `time` for a one-character prefix of the layout. -/
def skipChar (prefixChar : Char) (value : List Char) : Option (List Char) :=
  match value with
  | c :: rest => if c = prefixChar then some rest else none
  | [] => none

/-- The fractional second read after the seconds when the layout has none:
a period or comma followed by digits, of which nine count. Yields the
nanoseconds and the rest of the value; a value that does not start so is left
whole. -/
def parseFraction (value : List Char) : Nat × List Char :=
  match value with
  | sep :: d :: rest =>
    if (sep = '.' ∨ sep = ',') ∧ (digitVal d).isSome then
      let digits := d :: rest.takeWhile fun c => (digitVal c).isSome
      let kept := digits.take 9
      ((digitsVal kept).getD 0 * 10 ^ (9 - kept.length),
       rest.dropWhile fun c => (digitVal c).isSome)
    else (0, value)
  | _ => (0, value)

/-- The element `Z07:00` of the layout: `Z`, or a sign, two digits, a colon and
two digits, read byte by byte; hours up to 24 and minutes up to 60 pass the
range test. Yields the offset in seconds and the rest of the value, or the
error text. -/
def parseZone (whole : String) (value : List Char) : Except Error (Int × List Char) :=
  match value with
  | 'Z' :: rest => Except.ok (0, rest)
  | _ =>
    match (value.map fun c => utf8Bytes c.toNat).flatten with
    | sign :: h1 :: h2 :: colon :: m1 :: m2 :: _ =>
      if colon ≠ 58 then Except.error (parseErrorElem whole value "Z07:00")
      else
        let hr := getnum [Char.ofNat h1, Char.ofNat h2] true
        let mm := if hr.isSome then getnum [Char.ofNat m1, Char.ofNat m2] true else none
        let h := (hr.map Prod.fst).getD 0
        let m := (mm.map Prod.fst).getD 0
        if 60 < m then Except.error (parseErrorMsg whole ": time zone offset minute out of range")
        else if 24 < h then
          Except.error (parseErrorMsg whole ": time zone offset hour out of range")
        else if mm.isNone then Except.error (parseErrorElem whole value "Z07:00")
        else if sign = 43 then Except.ok (Int.ofNat ((h * 60 + m) * 60), value.drop 6)
        else if sign = 45 then Except.ok (- Int.ofNat ((h * 60 + m) * 60), value.drop 6)
        else Except.error (parseErrorElem whole value "Z07:00")
    | _ => Except.error (parseErrorElem whole value "Z07:00")

/-- The elements `15:04:05Z07:00` of the layout and the checks made once the
layout is used up, given the date already read. -/
def parseClock (whole : String) (year month day : Nat) (value : List Char) :
    Except Error Time :=
  match getnum value false with
  | none => Except.error (parseErrorElem whole value "15")
  | some (hour, v1) =>
    if 24 ≤ hour then Except.error (parseErrorMsg whole ": hour out of range")
    else
      match skipChar ':' v1 with
      | none => Except.error (parseErrorElem whole v1 ":")
      | some v2 =>
        match getnum v2 true with
        | none => Except.error (parseErrorElem whole v2 "04")
        | some (min, v3) =>
          if 60 ≤ min then Except.error (parseErrorMsg whole ": minute out of range")
          else
            match skipChar ':' v3 with
            | none => Except.error (parseErrorElem whole v3 ":")
            | some v4 =>
              match getnum v4 true with
              | none => Except.error (parseErrorElem whole v4 "05")
              | some (sec, v5) =>
                if 60 ≤ sec then Except.error (parseErrorMsg whole ": second out of range")
                else
                  match parseZone whole (parseFraction v5).2 with
                  | Except.error err => Except.error err
                  | Except.ok (offset, v6) =>
                    if v6 ≠ [] then
                      Except.error (parseErrorMsg whole (": extra text: " ++ quote v6))
                    else if day < 1 ∨ daysIn year month < day then
                      Except.error (parseErrorMsg whole ": day out of range")
                    else
                      Except.ok ⟨year, month, day, hour, min, sec, (parseFraction v5).1, offset⟩

/-- Go `time.Parse(time.RFC3339, value)`: the elements of the layout
`2006-01-02T15:04:05Z07:00` in turn. The year has four digits, month, day,
minute and second two, the hour one or two; a fraction after the seconds may
follow a period or a comma; the result carries the civil fields read and the
offset. -/
def Parse (value : String) : Except Error Time :=
  match value.toList with
  | y1 :: y2 :: y3 :: y4 :: v1 =>
    match digitsVal [y1, y2, y3, y4] with
    | none => Except.error (parseErrorElem value value.toList "2006")
    | some year =>
      match skipChar '-' v1 with
      | none => Except.error (parseErrorElem value v1 "-")
      | some v2 =>
        match getnum v2 true with
        | none => Except.error (parseErrorElem value v2 "01")
        | some (month, v3) =>
          if month = 0 ∨ 12 < month then Except.error (parseErrorMsg value ": month out of range")
          else
            match skipChar '-' v3 with
            | none => Except.error (parseErrorElem value v3 "-")
            | some v4 =>
              match getnum v4 true with
              | none => Except.error (parseErrorElem value v4 "02")
              | some (day, v5) =>
                match skipChar 'T' v5 with
                | none => Except.error (parseErrorElem value v5 "T")
                | some v6 => parseClock value year month day v6
  | _ => Except.error (parseErrorElem value value.toList "2006")

end time

/-- The date-time grammar of RFC 3339 (section 5.6), offset part: `Z` or a
sign, an hour up to 23, a colon and a minute up to 59. -/
def validRFC3339Offset : List Char → Bool
  | [z] => z = 'Z' || z = 'z'
  | [sign, h1, h2, ':', m1, m2] =>
    match time.digitsVal [h1, h2], time.digitsVal [m1, m2] with
    | some h, some m => (sign = '+' || sign = '-') && decide (h ≤ 23) && decide (m ≤ 59)
    | _, _ => false
  | _ => false

/-- The date-time grammar of RFC 3339 (section 5.6): what the booking property
calls a valid RFC-3339 timestamp. Four digits of year, two each of month, day,
hour, minute and second, in range (a second may be 60), an optional fraction
after a period, and the offset. -/
def validRFC3339 (s : String) : Bool :=
  match s.toList with
  | y1 :: y2 :: y3 :: y4 :: '-' :: m1 :: m2 :: '-' :: d1 :: d2 :: t ::
      h1 :: h2 :: ':' :: n1 :: n2 :: ':' :: s1 :: s2 :: rest =>
    match time.digitsVal [y1, y2, y3, y4], time.digitsVal [m1, m2], time.digitsVal [d1, d2],
          time.digitsVal [h1, h2], time.digitsVal [n1, n2], time.digitsVal [s1, s2] with
    | some year, some month, some day, some hour, some min, some sec =>
      (t = 'T' || t = 't') && decide (1 ≤ month) && decide (month ≤ 12) && decide (1 ≤ day) &&
        decide (day ≤ time.daysIn year month) && decide (hour ≤ 23) && decide (min ≤ 59) &&
        decide (sec ≤ 60) &&
        (match rest with
         | '.' :: d :: more =>
           (time.digitVal d).isSome &&
             validRFC3339Offset (more.dropWhile fun c => (time.digitVal c).isSome)
         | _ => validRFC3339Offset rest)
    | _, _, _, _, _, _ => false
  | _ => false

namespace bcrypt

/-- Go `bcrypt.ErrMismatchedHashAndPassword`. -/
def ErrMismatchedHashAndPassword : Error :=
  "crypto/bcrypt: hashedPassword is not the hash of the given password"

/-- Go `bcrypt.ErrHashTooShort`. -/
def ErrHashTooShort : Error :=
  "crypto/bcrypt: hashedSecret too short to be a bcrypted password"

/-- Go `bcrypt.ErrPasswordTooLong`. -/
def ErrPasswordTooLong : Error := "bcrypt: password length exceeds 72 bytes"

/-- Hashes computed with the bcrypt algorithm at cost 10 and the salt
`XajjQvNhvvRt5GSeFk1xFe`: a password and its hash. The last pair is the
test vector of the library. -/
def recorded : List (String × String) :=
  [("pw", "$2a$10$XajjQvNhvvRt5GSeFk1xFewgfztj8S.X6GgXsL6950enlhVp7v8Zi"),
   ("wrong", "$2a$10$XajjQvNhvvRt5GSeFk1xFebLkaNI3Q7z.GWNOTSoYP6gGs8pe29iW"),
   ("allmine", "$2a$10$XajjQvNhvvRt5GSeFk1xFeyqRrsxkhBkUiQeg0dt.wU1qD4aFDcga")]

/-- The length of a string in bytes (`len` of the Go byte slice). -/
def byteLength (s : String) : Nat :=
  ((s.toList.map fun c => time.utf8Bytes c.toNat).flatten).length

/-- Outcome of `bcrypt.GenerateFromPassword(password, bcrypt.DefaultCost)` in
the concrete runs. A password over 72 bytes is refused as by the library; a
recorded password gets its recorded hash, the one the library computes when
its random source yields that salt; for any other password no hash is
recorded and the call fails the way the library does when its random source
ends before a salt is read. -/
def GenerateFromPassword (password : String) : Except Error String :=
  if 72 < byteLength password then Except.error ErrPasswordTooLong
  else
    match recorded.lookup password with
    | some hash => Except.ok hash
    | none => Except.error "unexpected EOF"

/-- Outcome of `bcrypt.CompareHashAndPassword(hash, password)` in the concrete
runs. A hash under 59 bytes is refused as by the library; a recorded pair
verifies; any other pair is answered with the mismatch error, which is the
library's answer unless the hash is malformed or is an unrecorded hash of
that password. -/
def CompareHashAndPassword (hash password : String) : Option Error :=
  if byteLength hash < 59 then some ErrHashTooShort
  else if recorded.any fun e => decide (e.1 = password) && decide (e.2 = hash) then none
  else some ErrMismatchedHashAndPassword

end bcrypt

/-- The environment of the concrete runs: identifiers 1, 2, 3, ...; a clock
advancing one second per reading; the recorded outcomes of `bcrypt`; and
`time.Parse` with the layout `time.RFC3339`. -/
def Env.sample : Env where
  uuidNew := fun n => ⟨n + 1⟩
  timeNow := fun n => ⟨2024, 1, 15, 10, 0, n % 60, 0, 0⟩
  GenerateFromPassword := bcrypt.GenerateFromPassword
  CompareHashAndPassword := bcrypt.CompareHashAndPassword
  Parse := time.Parse

/-! ## Wiring (`cmd/api/main.go`) and runs -/

namespace main

/-- The auth service as `main` builds it: the three repositories of
`internal/adapters/repositories` over one storage client. -/
def authService {σ : Type} (db : DBClient σ) : AuthService σ :=
  NewAuthService (repositories.NewUserRepository db) (repositories.NewCompanyRepository db)
    (repositories.NewProfessionalRepository db)

/-- The booking service as `main` builds it. -/
def bookingService {σ : Type} (db : DBClient σ) : BookingService σ :=
  { appointmentRepo := repositories.NewAppointmentRepository db }

end main

/-- A second implementation of the interface `user.UserRepository` over a
storage client: `GetByEmail` hands back a nil pointer together with the error
when `First` reports one. It is not the repository of the program; it serves
to run `AuthService.Register` past its lookup. -/
def nilOnErrorUserRepository {σ : Type} (db : DBClient σ) : UserRepository σ where
  Create := repositories.UserRepository.Create db
  GetByEmail := fun s email =>
    match (db.FirstUser s (Cond.str "email = ?" email)).2 with
    | some err => (none, some err)
    | none => (some (db.FirstUser s (Cond.str "email = ?" email)).1, none)

/-- The auth service over that second user repository, with the company and
professional repositories of the program. -/
def authServiceNilOnError {σ : Type} (db : DBClient σ) : AuthService σ :=
  NewAuthService (nilOnErrorUserRepository db) (repositories.NewCompanyRepository db)
    (repositories.NewProfessionalRepository db)

/-- Go `appointment_handler.BookAppointmentRequest`: the arguments of one booking. -/
structure BookAppointmentRequest where
  ServiceID : UUID
  ClientID : UUID
  StartTime : String
  deriving DecidableEq, Repr

/-- Consecutive `BookAppointment` calls, one per request: the results, oldest
first, and the world after the last call. -/
def BookingService.bookAll {σ : Type} (s : BookingService σ) (env : Env) :
    World σ → List BookAppointmentRequest → List (Option Appointment × Option Error) × World σ
  | w, [] => ([], w)
  | w, b :: bs =>
    let r := s.BookAppointment env w b.ServiceID b.ClientID b.StartTime
    let rest := BookingService.bookAll s env r.2 bs
    (r.1 :: rest.1, rest.2)

/-- The appointments returned by the calls made for a client, in call order;
a failed call returns none. -/
def bookedFor (clientID : UUID) :
    List BookAppointmentRequest → List (Option Appointment × Option Error) → List Appointment
  | b :: bs, r :: rs =>
    (if b.ClientID = clientID then r.1.toList else []) ++ bookedFor clientID bs rs
  | _, _ => []

/-- The number of calls made for a client that returned no error. -/
def successesFor (clientID : UUID) :
    List BookAppointmentRequest → List (Option Appointment × Option Error) → Nat
  | b :: bs, r :: rs =>
    (if b.ClientID = clientID ∧ r.2 = none then 1 else 0) + successesFor clientID bs rs
  | _, _ => 0

/-- A user record of the in-memory store, used in concrete runs. -/
def User.ana : User :=
  { ID := ⟨7⟩, Name := "Ana", Email := "ana@example.com", PasswordHash := "$2a$10$XajjQvNhvvRt5GSeFk1xFewgfztj8S.X6GgXsL6950enlhVp7v8Zi",
    Role := "client", CreatedAt := ⟨2024, 1, 1, 9, 0, 0, 0, 0⟩ }

/-! ## Appointment handler (`internal/adapters/handlers/appointment_handler`)

The HTTP framework is outside the repository. A handler call is given the
outcome of `c.ShouldBindJSON(&req)`, the bound request or the binding error,
and yields what it writes with `c.JSON`: a status code and a value. -/

/-- Go `http.StatusOK`. -/
def StatusOK : Nat := 200

/-- Go `http.StatusBadRequest`. -/
def StatusBadRequest : Nat := 400

/-- Go `http.StatusInternalServerError`. -/
def StatusInternalServerError : Nat := 500

/-- The value a handler passes to `c.JSON`: the map with the one key `error`,
or an appointment pointer. -/
inductive JSONObj where
  | error (msg : String)
  | appointment (a : Option Appointment)
  deriving DecidableEq, Repr

/-- The response a handler writes: `c.JSON(code, obj)`. -/
structure Response where
  code : Nat
  obj : JSONObj
  deriving DecidableEq, Repr

namespace appointment_handler

/-- Go `appointment_handler.Handler`. -/
structure Handler (σ : Type) where
  bookingService : BookingService σ

/-- Go `appointment_handler.NewHandler`. -/
def NewHandler {σ : Type} (bookingService : BookingService σ) : Handler σ :=
  { bookingService := bookingService }

/-- Go `Handler.BookAppointment`. `bound` is the outcome of
`c.ShouldBindJSON(&req)`. -/
def Handler.BookAppointment {σ : Type} (h : Handler σ) (env : Env) (w : World σ)
    (bound : Except Error BookAppointmentRequest) : Response × World σ :=
  match bound with
  | Except.error err => ({ code := StatusBadRequest, obj := JSONObj.error err }, w)
  | Except.ok req =>
    let r := h.bookingService.BookAppointment env w req.ServiceID req.ClientID req.StartTime
    match r.1.2 with
    | some err => ({ code := StatusInternalServerError, obj := JSONObj.error err }, r.2)
    | none => ({ code := StatusOK, obj := JSONObj.appointment r.1.1 }, r.2)

end appointment_handler

/-- The appointment handler as `main` builds it. -/
def main.appointmentHandler {σ : Type} (db : DBClient σ) : appointment_handler.Handler σ :=
  appointment_handler.NewHandler (main.bookingService db)

/-- The in-memory storage client whose `Create` fails on appointment records
and keeps every other record. -/
def Store.refuseAppointments : DBClient Store :=
  Store.client fun r =>
    match r with
    | Record.Appointment _ => true
    | _ => false

/-! ## Lemmas on the paths of `Register` and `Login` -/

/-- The identifier string is never empty: it has 36 characters. -/
theorem UUID_String_ne_empty (u : UUID) : u.String ≠ "" := by
  intro h
  have := congrArg String.length h
  simp [UUID.String, String.length] at this

/-- The repository of the program answers every lookup with a non-nil pointer. -/
theorem wired_GetByEmail_some {σ : Type} (db : DBClient σ) (st : σ) (email : String) :
    ((main.authService db).userRepo.GetByEmail st email).1 =
      some (db.FirstUser st (Cond.str "email = ?" email)).1 := rfl

/-- When the lookup returns a user, `Register` stops at its first check. -/
theorem Register_of_existing {σ : Type} (s : AuthService σ) (env : Env) (w : World σ)
    (req : RegisterRequest) (x : User)
    (h : (s.userRepo.GetByEmail w.store req.Email).1 = some x) :
    s.Register env w req =
      ((none, some "usuário já existe"),
       { w with calls := w.calls ++ [Call.GetByEmail req.Email] }) := by
  simp [AuthService.Register, World.GetByEmail, h]

/-- When the lookup returns nil and the role is not one of the three,
`Register` stops at its second check. -/
theorem Register_of_invalid_role {σ : Type} (s : AuthService σ) (env : Env) (w : World σ)
    (req : RegisterRequest)
    (h : (s.userRepo.GetByEmail w.store req.Email).1 = none)
    (hr : req.Role ≠ "client" ∧ req.Role ≠ "company" ∧ req.Role ≠ "professional") :
    s.Register env w req =
      ((none, some "role inválido"),
       { w with calls := w.calls ++ [Call.GetByEmail req.Email] }) := by
  simp [AuthService.Register, World.GetByEmail, h, hr]

/-- When `Register` returns no error, the lookup returned nil, the role is one
of the three, hashing succeeded and the user create call succeeded. -/
theorem Register_ok_inversion {σ : Type} (s : AuthService σ) (env : Env) (w : World σ)
    (req : RegisterRequest) (hok : (s.Register env w req).1.2 = none) :
    (s.userRepo.GetByEmail w.store req.Email).1 = none ∧
    (req.Role = "client" ∨ req.Role = "company" ∨ req.Role = "professional") ∧
    ∃ hashed, env.GenerateFromPassword req.Password = Except.ok hashed ∧
      (s.userRepo.Create w.store
        { ID := env.uuidNew w.uuids, Name := req.Name, Email := req.Email,
          PasswordHash := hashed, Role := req.Role, CreatedAt := env.timeNow w.ticks }).1 = none := by
  cases h1 : (s.userRepo.GetByEmail w.store req.Email).1 with
  | some x => simp [AuthService.Register, World.GetByEmail, h1] at hok
  | none =>
    refine ⟨rfl, ?_⟩
    by_cases hr : req.Role ≠ "client" ∧ req.Role ≠ "company" ∧ req.Role ≠ "professional"
    · simp [AuthService.Register, World.GetByEmail, h1, hr] at hok
    · refine ⟨by tauto, ?_⟩
      cases h2 : env.GenerateFromPassword req.Password with
      | error e => simp [AuthService.Register, World.GetByEmail, h1, hr, h2] at hok
      | ok hashed =>
        refine ⟨hashed, rfl, ?_⟩
        cases h3 : (s.userRepo.Create w.store
          { ID := env.uuidNew w.uuids, Name := req.Name, Email := req.Email,
            PasswordHash := hashed, Role := req.Role, CreatedAt := env.timeNow w.ticks }).1 with
        | none => rfl
        | some e =>
          simp [AuthService.Register, World.GetByEmail, World.uuidNew, World.timeNow,
            World.Create, h1, hr, h2, h3] at hok

/-- The successful path of `Register` for the role `company`. -/
theorem Register_company_eq {σ : Type} (s : AuthService σ) (env : Env) (w : World σ)
    (req : RegisterRequest) (hashed : String) (u : User) (c : Company)
    (hrole : req.Role = "company")
    (h1 : (s.userRepo.GetByEmail w.store req.Email).1 = none)
    (h2 : env.GenerateFromPassword req.Password = Except.ok hashed)
    (hu : u = { ID := env.uuidNew w.uuids, Name := req.Name, Email := req.Email,
                PasswordHash := hashed, Role := req.Role, CreatedAt := env.timeNow w.ticks })
    (hc : c = { ID := env.uuidNew (w.uuids + 1), UserID := env.uuidNew w.uuids, Name := req.Name,
                CreatedAt := env.timeNow (w.ticks + 1), User := User.zero })
    (h3 : (s.userRepo.Create w.store u).1 = none) :
    s.Register env w req =
      ((some u, none),
       { store := (s.companyRepo.CreateCompany (s.userRepo.Create w.store u).2 c).2,
         calls := w.calls ++ [Call.GetByEmail req.Email, Call.Create u, Call.CreateCompany c],
         uuids := w.uuids + 2, ticks := w.ticks + 2 }) := by
  subst hu hc
  rw [hrole] at h3 ⊢
  simp [AuthService.Register, World.GetByEmail, World.uuidNew, World.timeNow,
    World.Create, World.CreateCompany, h1, h2, h3, hrole]

/-- The successful path of `Register` for the role `professional`. -/
theorem Register_professional_eq {σ : Type} (s : AuthService σ) (env : Env) (w : World σ)
    (req : RegisterRequest) (hashed : String) (u : User) (p : Professional)
    (hrole : req.Role = "professional")
    (h1 : (s.userRepo.GetByEmail w.store req.Email).1 = none)
    (h2 : env.GenerateFromPassword req.Password = Except.ok hashed)
    (hu : u = { ID := env.uuidNew w.uuids, Name := req.Name, Email := req.Email,
                PasswordHash := hashed, Role := req.Role, CreatedAt := env.timeNow w.ticks })
    (hp : p = { ID := env.uuidNew (w.uuids + 1), UserID := env.uuidNew w.uuids, Name := req.Name,
                CompanyID := none, CreatedAt := env.timeNow (w.ticks + 1), User := User.zero,
                Company := none })
    (h3 : (s.userRepo.Create w.store u).1 = none) :
    s.Register env w req =
      ((some u, none),
       { store := (s.profRepo.CreateProfessional (s.userRepo.Create w.store u).2 p).2,
         calls := w.calls ++ [Call.GetByEmail req.Email, Call.Create u, Call.CreateProfessional p],
         uuids := w.uuids + 2, ticks := w.ticks + 2 }) := by
  subst hu hp
  rw [hrole] at h3 ⊢
  simp [AuthService.Register, World.GetByEmail, World.uuidNew, World.timeNow,
    World.Create, World.CreateProfessional, h1, h2, h3, hrole]

/-- The successful path of `Register` for the role `client`. -/
theorem Register_client_eq {σ : Type} (s : AuthService σ) (env : Env) (w : World σ)
    (req : RegisterRequest) (hashed : String) (u : User)
    (hrole : req.Role = "client")
    (h1 : (s.userRepo.GetByEmail w.store req.Email).1 = none)
    (h2 : env.GenerateFromPassword req.Password = Except.ok hashed)
    (hu : u = { ID := env.uuidNew w.uuids, Name := req.Name, Email := req.Email,
                PasswordHash := hashed, Role := req.Role, CreatedAt := env.timeNow w.ticks })
    (h3 : (s.userRepo.Create w.store u).1 = none) :
    s.Register env w req =
      ((some u, none),
       { store := (s.userRepo.Create w.store u).2,
         calls := w.calls ++ [Call.GetByEmail req.Email, Call.Create u],
         uuids := w.uuids + 1, ticks := w.ticks + 1 }) := by
  subst hu
  rw [hrole] at h3 ⊢
  simp [AuthService.Register, World.GetByEmail, World.uuidNew, World.timeNow,
    World.Create, h1, h2, h3, hrole]

/-- Over the in-memory client, the user repository that returns nil on a
lookup error finds a user exactly when the store holds one with that email. -/
theorem nilOnError_lookup_iff (refuses : Record → Bool) (st : Store) (email : String) :
    ((nilOnErrorUserRepository (Store.client refuses)).GetByEmail st email).1 ≠ none ↔
      ∃ u ∈ st.users, u.Email = email := by
  simp only [nilOnErrorUserRepository, Store.client]
  cases h : (st.users.filter (Cond.str "email = ?" email).matchesUser).head? with
  | none =>
    simp only [ne_eq, not_true_eq_false, false_iff, not_exists, not_and]
    intro u hu he
    have hnil : st.users.filter (Cond.str "email = ?" email).matchesUser = [] := by
      simpa using h
    have : u ∈ st.users.filter (Cond.str "email = ?" email).matchesUser := by
      simp [List.mem_filter, hu, Cond.matchesUser, he]
    rw [hnil] at this
    exact absurd this (List.not_mem_nil u)
  | some x =>
    simp only [ne_eq, reduceCtorEq, not_false_eq_true, true_iff]
    have hx : x ∈ st.users.filter (Cond.str "email = ?" email).matchesUser :=
      List.mem_of_mem_head? h
    rw [List.mem_filter] at hx
    refine ⟨x, hx.1, ?_⟩
    simpa [Cond.matchesUser] using hx.2

/-- Over the in-memory client, a user whose create call succeeded is found by
the lookup of its email. -/
theorem nilOnError_finds_created (refuses : Record → Bool) (st : Store) (u : User)
    (h : ((authServiceNilOnError (Store.client refuses)).userRepo.Create st u).1 = none) :
    ((authServiceNilOnError (Store.client refuses)).userRepo.GetByEmail
      ((authServiceNilOnError (Store.client refuses)).userRepo.Create st u).2 u.Email).1 ≠
      none := by
  have hr : refuses (Record.User u) = false := by
    by_contra hc
    simp [authServiceNilOnError, NewAuthService, nilOnErrorUserRepository,
      repositories.UserRepository.Create, Store.client, hc] at h
  change ((nilOnErrorUserRepository (Store.client refuses)).GetByEmail _ u.Email).1 ≠ none
  rw [nilOnError_lookup_iff]
  refine ⟨u, ?_, rfl⟩
  simp [authServiceNilOnError, NewAuthService, nilOnErrorUserRepository,
    repositories.UserRepository.Create, Store.client, hr, Store.insert]

/-- Over the in-memory client, a `CreateCompany` call, failed or not, leaves
every user that the lookup found in place. -/
theorem nilOnError_company_keeps_lookup (refuses : Record → Bool) (st : Store) (c : Company)
    (email : String)
    (h : ((authServiceNilOnError (Store.client refuses)).userRepo.GetByEmail st email).1 ≠ none) :
    ((authServiceNilOnError (Store.client refuses)).userRepo.GetByEmail
      ((authServiceNilOnError (Store.client refuses)).companyRepo.CreateCompany st c).2
      email).1 ≠ none := by
  change ((nilOnErrorUserRepository (Store.client refuses)).GetByEmail _ email).1 ≠ none at h
  change ((nilOnErrorUserRepository (Store.client refuses)).GetByEmail _ email).1 ≠ none
  rw [nilOnError_lookup_iff] at h ⊢
  obtain ⟨u, hu, he⟩ := h
  refine ⟨u, ?_, he⟩
  simp only [authServiceNilOnError, NewAuthService, repositories.NewCompanyRepository,
    repositories.CompanyRepository.CreateCompany, Store.client]
  split <;> simpa [Store.insert] using hu

/-- Over the in-memory client, a `CreateProfessional` call, failed or not,
leaves every user that the lookup found in place. -/
theorem nilOnError_professional_keeps_lookup (refuses : Record → Bool) (st : Store)
    (p : Professional) (email : String)
    (h : ((authServiceNilOnError (Store.client refuses)).userRepo.GetByEmail st email).1 ≠ none) :
    ((authServiceNilOnError (Store.client refuses)).userRepo.GetByEmail
      ((authServiceNilOnError (Store.client refuses)).profRepo.CreateProfessional st p).2
      email).1 ≠ none := by
  change ((nilOnErrorUserRepository (Store.client refuses)).GetByEmail _ email).1 ≠ none at h
  change ((nilOnErrorUserRepository (Store.client refuses)).GetByEmail _ email).1 ≠ none
  rw [nilOnError_lookup_iff] at h ⊢
  obtain ⟨u, hu, he⟩ := h
  refine ⟨u, ?_, he⟩
  simp only [authServiceNilOnError, NewAuthService, repositories.NewProfessionalRepository,
    repositories.ProfessionalRepository.CreateProfessional, Store.client]
  split <;> simpa [Store.insert] using hu

/-- `Login` when the lookup reports an error. -/
theorem Login_of_lookup_error {σ : Type} (s : AuthService σ) (env : Env) (w : World σ)
    (req : AuthRequest) (e : Error)
    (h : (s.userRepo.GetByEmail w.store req.Email).2 = some e) :
    s.Login env w req =
      (Outcome.returned (none, some "credenciais inválidas"),
       { w with calls := w.calls ++ [Call.GetByEmail req.Email] }) := by
  simp [AuthService.Login, World.GetByEmail, h]

/-- `Login` when the lookup succeeds and the password does not verify. -/
theorem Login_of_mismatch {σ : Type} (s : AuthService σ) (env : Env) (w : World σ)
    (req : AuthRequest) (u : User) (e : Error)
    (h : s.userRepo.GetByEmail w.store req.Email = (some u, none))
    (hv : env.CompareHashAndPassword u.PasswordHash req.Password = some e) :
    s.Login env w req =
      (Outcome.returned (none, some "credenciais inválidas"),
       { w with calls := w.calls ++ [Call.GetByEmail req.Email] }) := by
  simp [AuthService.Login, World.GetByEmail, h, hv]

/-! ## Registration -/

/-- Claim C1, evaluated on the program as wired. The request carries an email
no stored user has (the store is empty), the role `client`, a password whose
hashing succeeds, and the user create call would succeed; `Register` still
returns a nil user and the error `usuário já existe`, and its only repository
call is the lookup: `GetByEmail` of `repositories.UserRepository` returns the
address of its local variable, never nil, and `Register` tests that pointer. -/
theorem Register_wired_rejects_fresh_email :
    (Store.empty.users.filter fun u => decide (u.Email = "ana@example.com")) = [] ∧
    Env.sample.GenerateFromPassword "pw" = Except.ok "$2a$10$XajjQvNhvvRt5GSeFk1xFewgfztj8S.X6GgXsL6950enlhVp7v8Zi" ∧
    (∀ u : User, ((main.authService Store.keepAll).userRepo.Create Store.empty u).1 = none) ∧
    (main.authService Store.keepAll).Register Env.sample (World.init Store.empty)
        { Name := "Ana", Email := "ana@example.com", Password := "pw", Role := "client" } =
      ((none, some "usuário já existe"),
       { store := Store.empty, calls := [Call.GetByEmail "ana@example.com"],
         uuids := 0, ticks := 0 }) :=
  ⟨rfl, rfl, fun _ => rfl, rfl⟩

/-- Claim C2. For every implementation of the repositories on which a created
user is found by the lookup of its email, and stays found across a
`CreateCompany` or `CreateProfessional` call: when a first `Register` call
returns no error, the lookup had found no user with that email before it, and
a second call with the same email, whatever its other fields, returns a nil
user and the error `usuário já existe`; the world it leaves is the one the
first call left with the lookup as only further repository call, so no create
call is made on the user, company or professional repository. -/
theorem Register_duplicate_after_success {σ : Type} (s : AuthService σ) (env : Env)
    (w : World σ) (req₁ : RegisterRequest) (name₂ password₂ role₂ : String)
    (hfinds : ∀ (st : σ) (u : User), (s.userRepo.Create st u).1 = none →
      (s.userRepo.GetByEmail (s.userRepo.Create st u).2 u.Email).1 ≠ none)
    (hcompany : ∀ (st : σ) (c : Company) (email : String),
      (s.userRepo.GetByEmail st email).1 ≠ none →
      (s.userRepo.GetByEmail (s.companyRepo.CreateCompany st c).2 email).1 ≠ none)
    (hprof : ∀ (st : σ) (p : Professional) (email : String),
      (s.userRepo.GetByEmail st email).1 ≠ none →
      (s.userRepo.GetByEmail (s.profRepo.CreateProfessional st p).2 email).1 ≠ none)
    (hfirst : (s.Register env w req₁).1.2 = none) :
    (s.userRepo.GetByEmail w.store req₁.Email).1 = none ∧
    (s.Register env (s.Register env w req₁).2
        { Name := name₂, Email := req₁.Email, Password := password₂, Role := role₂ }).1 =
      (none, some "usuário já existe") ∧
    (s.Register env (s.Register env w req₁).2
        { Name := name₂, Email := req₁.Email, Password := password₂, Role := role₂ }).2 =
      { (s.Register env w req₁).2 with
        calls := (s.Register env w req₁).2.calls ++ [Call.GetByEmail req₁.Email] } := by
  obtain ⟨h1, hrole, hashed, h2, h3⟩ := Register_ok_inversion s env w req₁ hfirst
  have key : (s.userRepo.GetByEmail (s.Register env w req₁).2.store req₁.Email).1 ≠ none := by
    rcases hrole with hr | hr | hr
    · rw [Register_client_eq s env w req₁ hashed _ hr h1 h2 rfl h3]
      exact hfinds _ _ h3
    · rw [Register_company_eq s env w req₁ hashed _ _ hr h1 h2 rfl rfl h3]
      exact hcompany _ _ _ (hfinds _ _ h3)
    · rw [Register_professional_eq s env w req₁ hashed _ _ hr h1 h2 rfl rfl h3]
      exact hprof _ _ _ (hfinds _ _ h3)
  obtain ⟨x, hx⟩ := Option.ne_none_iff_exists'.mp key
  have h := Register_of_existing s env (s.Register env w req₁).2
    { Name := name₂, Email := req₁.Email, Password := password₂, Role := role₂ } x hx
  rw [h]
  exact ⟨h1, rfl, rfl⟩

/-- Claim C2 at a concrete input, over the in-memory store that keeps every
record and a user repository whose lookup returns nil for an unknown email:
the first call succeeds and stores the user, the second call with the same
email is rejected, and the calls of the two are the lookup, the user create
and the second lookup. -/
theorem Register_duplicate_after_success_witness :
    ((authServiceNilOnError Store.keepAll).Register Env.sample (World.init Store.empty)
        { Name := "Ana", Email := "ana@example.com", Password := "pw", Role := "client" }).1.2 =
      none ∧
    ((authServiceNilOnError Store.keepAll).userRepo.GetByEmail (World.init Store.empty).store
        "ana@example.com").1 = none ∧
    ((authServiceNilOnError Store.keepAll).Register Env.sample
        ((authServiceNilOnError Store.keepAll).Register Env.sample (World.init Store.empty)
          { Name := "Ana", Email := "ana@example.com", Password := "pw", Role := "client" }).2
        { Name := "Ana Two", Email := "ana@example.com", Password := "allmine",
          Role := "company" }).1 = (none, some "usuário já existe") ∧
    ((authServiceNilOnError Store.keepAll).Register Env.sample
        ((authServiceNilOnError Store.keepAll).Register Env.sample (World.init Store.empty)
          { Name := "Ana", Email := "ana@example.com", Password := "pw", Role := "client" }).2
        { Name := "Ana Two", Email := "ana@example.com", Password := "allmine",
          Role := "company" }).2.calls =
      [Call.GetByEmail "ana@example.com",
       Call.Create { ID := ⟨1⟩, Name := "Ana", Email := "ana@example.com",
                     PasswordHash := "$2a$10$XajjQvNhvvRt5GSeFk1xFewgfztj8S.X6GgXsL6950enlhVp7v8Zi",
                     Role := "client", CreatedAt := ⟨2024, 1, 15, 10, 0, 0, 0, 0⟩ },
       Call.GetByEmail "ana@example.com"] := by
  have h := Register_duplicate_after_success (authServiceNilOnError Store.keepAll) Env.sample
    (World.init Store.empty)
    { Name := "Ana", Email := "ana@example.com", Password := "pw", Role := "client" }
    "Ana Two" "allmine" "company"
    (nilOnError_finds_created _) (nilOnError_company_keeps_lookup _)
    (nilOnError_professional_keeps_lookup _) rfl
  exact ⟨rfl, h.1, h.2.1, (congrArg World.calls h.2.2).trans rfl⟩

/-- Claim C3 as stated fails: with the role `manager` and an email a stored
user has, `Register` returns the error `usuário já existe`, not
`role inválido`; the lookup is checked before the role. -/
theorem Register_manager_stored_email_duplicate :
    (main.authService Store.keepAll).Register Env.sample
        (World.init { Store.empty with users := [User.ana] })
        { Name := "Ana", Email := "ana@example.com", Password := "pw", Role := "manager" } =
      ((none, some "usuário já existe"),
       { store := { Store.empty with users := [User.ana] },
         calls := [Call.GetByEmail "ana@example.com"], uuids := 0, ticks := 0 }) ∧
    ((main.authService Store.keepAll).Register Env.sample
        (World.init { Store.empty with users := [User.ana] })
        { Name := "Ana", Email := "ana@example.com", Password := "pw",
          Role := "manager" }).1.2 ≠ some "role inválido" := by
  refine ⟨rfl, ?_⟩
  decide

/-- Claim C3, amended. For every request whose role is none of `client`,
`company`, `professional`, every implementation of the repositories and every
world: `Register` returns a nil user and an error, the error being
`role inválido` when the lookup returned no user and `usuário já existe` when
it returned one, and its only repository call is the lookup, so no create call
is made and the store is unchanged. -/
theorem Register_invalid_role_no_create {σ : Type} (s : AuthService σ) (env : Env)
    (w : World σ) (req : RegisterRequest)
    (hr : req.Role ≠ "client" ∧ req.Role ≠ "company" ∧ req.Role ≠ "professional") :
    (s.Register env w req).1.1 = none ∧
    (s.Register env w req).1.2 =
      some (if (s.userRepo.GetByEmail w.store req.Email).1 = none then "role inválido"
            else "usuário já existe") ∧
    (s.Register env w req).2 = { w with calls := w.calls ++ [Call.GetByEmail req.Email] } := by
  cases h : (s.userRepo.GetByEmail w.store req.Email).1 with
  | none => rw [Register_of_invalid_role s env w req h hr]; simp
  | some x => rw [Register_of_existing s env w req x h]; simp

/-- Claim C3, amended, at a concrete input: the role `manager`, an empty store
and a user repository whose lookup returns nil; the error is `role inválido`. -/
theorem Register_invalid_role_no_create_witness :
    (("manager" : String) ≠ "client" ∧ ("manager" : String) ≠ "company" ∧
      ("manager" : String) ≠ "professional") ∧
    ((authServiceNilOnError Store.keepAll).Register Env.sample (World.init Store.empty)
        { Name := "Ana", Email := "ana@example.com", Password := "pw", Role := "manager" }).1 =
      (none, some "role inválido") ∧
    ((authServiceNilOnError Store.keepAll).Register Env.sample (World.init Store.empty)
        { Name := "Ana", Email := "ana@example.com", Password := "pw", Role := "manager" }).2 =
      { store := Store.empty, calls := [Call.GetByEmail "ana@example.com"],
        uuids := 0, ticks := 0 } := by
  have h := Register_invalid_role_no_create (authServiceNilOnError Store.keepAll) Env.sample
    (World.init Store.empty)
    { Name := "Ana", Email := "ana@example.com", Password := "pw", Role := "manager" }
    (by decide)
  exact ⟨by decide, Prod.ext h.1 h.2.1, h.2.2⟩

/-! ## Login -/

/-- Claim C4. For every implementation of the user repository: a login whose
lookup reports an error and a login whose lookup succeeds but whose password
does not verify against the stored hash both return a nil response and the
error `credenciais inválidas`; the two results are equal. -/
theorem Login_failures_indistinguishable {σ : Type} (s : AuthService σ) (env : Env)
    (w₁ w₂ : World σ) (req₁ req₂ : AuthRequest) (e₁ e₂ : Error) (u : User)
    (hmiss : (s.userRepo.GetByEmail w₁.store req₁.Email).2 = some e₁)
    (hfound : s.userRepo.GetByEmail w₂.store req₂.Email = (some u, none))
    (hwrong : env.CompareHashAndPassword u.PasswordHash req₂.Password = some e₂) :
    (s.Login env w₁ req₁).1 = Outcome.returned (none, some "credenciais inválidas") ∧
    (s.Login env w₂ req₂).1 = Outcome.returned (none, some "credenciais inválidas") ∧
    (s.Login env w₁ req₁).1 = (s.Login env w₂ req₂).1 := by
  rw [Login_of_lookup_error s env w₁ req₁ e₁ hmiss,
    Login_of_mismatch s env w₂ req₂ u e₂ hfound hwrong]
  exact ⟨rfl, rfl, rfl⟩

/-- Claim C4 at a concrete input, on the program as wired: the same request
against an empty store and against a store holding the user with another
password. -/
theorem Login_failures_indistinguishable_witness :
    ((main.authService Store.keepAll).userRepo.GetByEmail
        (World.init Store.empty).store "ana@example.com").2 = some "record not found" ∧
    (main.authService Store.keepAll).userRepo.GetByEmail
        (World.init { Store.empty with users := [User.ana] }).store "ana@example.com" =
      (some User.ana, none) ∧
    Env.sample.CompareHashAndPassword User.ana.PasswordHash "wrong" =
      some "crypto/bcrypt: hashedPassword is not the hash of the given password" ∧
    ((main.authService Store.keepAll).Login Env.sample (World.init Store.empty)
        { Email := "ana@example.com", Password := "wrong" }).1 =
      ((main.authService Store.keepAll).Login Env.sample
        (World.init { Store.empty with users := [User.ana] })
        { Email := "ana@example.com", Password := "wrong" }).1 :=
  ⟨rfl, rfl, rfl,
   (Login_failures_indistinguishable (main.authService Store.keepAll) Env.sample
      (World.init Store.empty) (World.init { Store.empty with users := [User.ana] })
      { Email := "ana@example.com", Password := "wrong" }
      { Email := "ana@example.com", Password := "wrong" }
      "record not found"
      "crypto/bcrypt: hashedPassword is not the hash of the given password"
      User.ana rfl rfl rfl).2.2⟩

/-- Claim C5. For every implementation of the user repository: when the
lookup returns a user and no error and the password verifies against that
user's hash, `Login` returns no error and a response whose token is the string
form of the next generated identifier and whose user is exactly the user the
lookup returned; the token is not empty. -/
theorem Login_success {σ : Type} (s : AuthService σ) (env : Env) (w : World σ)
    (req : AuthRequest) (u : User)
    (hfound : s.userRepo.GetByEmail w.store req.Email = (some u, none))
    (hright : env.CompareHashAndPassword u.PasswordHash req.Password = none) :
    s.Login env w req =
      (Outcome.returned
         (some { Token := (env.uuidNew w.uuids).String, User := some u }, none),
       { w with calls := w.calls ++ [Call.GetByEmail req.Email], uuids := w.uuids + 1 }) ∧
    (env.uuidNew w.uuids).String ≠ "" := by
  refine ⟨?_, UUID_String_ne_empty _⟩
  simp [AuthService.Login, World.GetByEmail, World.uuidNew, hfound, hright]

/-- Claim C5 at a concrete input, on the program as wired. -/
theorem Login_success_witness :
    (main.authService Store.keepAll).userRepo.GetByEmail
        (World.init { Store.empty with users := [User.ana] }).store "ana@example.com" =
      (some User.ana, none) ∧
    Env.sample.CompareHashAndPassword User.ana.PasswordHash "pw" = none ∧
    ((main.authService Store.keepAll).Login Env.sample
        (World.init { Store.empty with users := [User.ana] })
        { Email := "ana@example.com", Password := "pw" }).1 =
      Outcome.returned
        (some { Token := "00000000-0000-0000-0000-000000000001", User := some User.ana }, none) :=
  ⟨rfl, rfl,
   (congrArg Prod.fst (Login_success (main.authService Store.keepAll) Env.sample
      (World.init { Store.empty with users := [User.ana] })
      { Email := "ana@example.com", Password := "pw" } User.ana rfl rfl).1).trans rfl⟩

/-! ## Booking -/

/-- Claim C6 as stated fails: `2024-03-05T4:30:00Z` is not a valid RFC-3339
timestamp, its hour having one digit, yet `time.Parse` with the layout
`time.RFC3339` accepts it, and `BookAppointment` calls `CreateAppointment` and
returns the appointment, which the store keeps. -/
theorem BookAppointment_one_digit_hour_booked :
    validRFC3339 "2024-03-05T4:30:00Z" = false ∧
    Env.sample.Parse "2024-03-05T4:30:00Z" = Except.ok ⟨2024, 3, 5, 4, 30, 0, 0, 0⟩ ∧
    (main.bookingService Store.keepAll).BookAppointment Env.sample (World.init Store.empty)
        ⟨11⟩ ⟨22⟩ "2024-03-05T4:30:00Z" =
      ((some { ID := ⟨1⟩, ClientID := ⟨22⟩, ProfessionalID := UUID.Nil, ServiceID := ⟨11⟩,
               StartTime := ⟨2024, 3, 5, 4, 30, 0, 0, 0⟩, EndTime := Time.zero,
               Status := "scheduled", CreatedAt := ⟨2024, 1, 15, 10, 0, 0, 0, 0⟩ }, none),
       { store :=
           { Store.empty with
             appointments :=
               [{ ID := ⟨1⟩, ClientID := ⟨22⟩, ProfessionalID := UUID.Nil, ServiceID := ⟨11⟩,
                  StartTime := ⟨2024, 3, 5, 4, 30, 0, 0, 0⟩, EndTime := Time.zero,
                  Status := "scheduled", CreatedAt := ⟨2024, 1, 15, 10, 0, 0, 0, 0⟩ }] },
         calls :=
           [Call.CreateAppointment
              { ID := ⟨1⟩, ClientID := ⟨22⟩, ProfessionalID := UUID.Nil, ServiceID := ⟨11⟩,
                StartTime := ⟨2024, 3, 5, 4, 30, 0, 0, 0⟩, EndTime := Time.zero,
                Status := "scheduled", CreatedAt := ⟨2024, 1, 15, 10, 0, 0, 0, 0⟩ }],
         uuids := 1, ticks := 1 }) :=
  ⟨rfl, rfl, rfl⟩

/-- Claim C6, amended. For every start-time string `time.Parse` rejects, every
service and client identifier, every implementation of the appointment
repository and every world: `BookAppointment` returns a nil appointment and
the parse error, and the world is left as it was, so `CreateAppointment` is
not called and the store is unchanged. -/
theorem BookAppointment_malformed_time {σ : Type} (s : BookingService σ) (env : Env)
    (w : World σ) (serviceID clientID : UUID) (startTimeStr : String) (err : Error)
    (hbad : env.Parse startTimeStr = Except.error err) :
    s.BookAppointment env w serviceID clientID startTimeStr = ((none, some err), w) := by
  simp [BookingService.BookAppointment, hbad]

/-- Claim C6, amended, at a concrete input: the start time `not-a-date`, which
is not a valid RFC-3339 timestamp and which `time.Parse` rejects. -/
theorem BookAppointment_malformed_time_witness :
    validRFC3339 "not-a-date" = false ∧
    Env.sample.Parse "not-a-date" =
      Except.error
        "parsing time \"not-a-date\" as \"2006-01-02T15:04:05Z07:00\": cannot parse \"not-a-date\" as \"2006\"" ∧
    (main.bookingService Store.keepAll).BookAppointment Env.sample (World.init Store.empty)
        ⟨11⟩ ⟨22⟩ "not-a-date" =
      ((none,
        some
          "parsing time \"not-a-date\" as \"2006-01-02T15:04:05Z07:00\": cannot parse \"not-a-date\" as \"2006\""),
       World.init Store.empty) :=
  ⟨rfl, rfl, BookAppointment_malformed_time (main.bookingService Store.keepAll) Env.sample
      (World.init Store.empty) ⟨11⟩ ⟨22⟩ "not-a-date" _ rfl⟩

/-- The client condition of `ListAppointments`, on the in-memory store. -/
theorem matchesAppointment_client (c : UUID) (a : Appointment) :
    (Cond.id "client_id = ?" c).matchesAppointment a = decide (a.ClientID = c) := by
  simp [Cond.matchesAppointment]

/-- On the store that keeps every record, `GetAppointments` returns the stored
appointments of the client and no error. -/
theorem GetAppointments_keepAll (w : World Store) (c : UUID) :
    ((main.bookingService Store.keepAll).GetAppointments w c).1 =
      (w.store.appointments.filter fun a => decide (a.ClientID = c), none) := by
  simp only [BookingService.GetAppointments, World.ListAppointments, main.bookingService,
    repositories.NewAppointmentRepository, repositories.AppointmentRepository.ListAppointments,
    Store.keepAll, Store.client]
  congr 1
  apply List.filter_congr
  intro a _
  exact matchesAppointment_client c a

/-- One booking on the store that keeps every record: the store gains exactly
the returned appointment, which carries the client of the request, and the
call returns an appointment exactly when it returns no error. -/
theorem BookAppointment_keepAll (env : Env) (w : World Store) (b : BookAppointmentRequest) :
    (((main.bookingService Store.keepAll).BookAppointment env w
        b.ServiceID b.ClientID b.StartTime).2.store.appointments =
      w.store.appointments ++
        ((main.bookingService Store.keepAll).BookAppointment env w
          b.ServiceID b.ClientID b.StartTime).1.1.toList) ∧
    (∀ a, ((main.bookingService Store.keepAll).BookAppointment env w
        b.ServiceID b.ClientID b.StartTime).1.1 = some a → a.ClientID = b.ClientID) ∧
    ((((main.bookingService Store.keepAll).BookAppointment env w
        b.ServiceID b.ClientID b.StartTime).1.2 = none) ↔
      (((main.bookingService Store.keepAll).BookAppointment env w
        b.ServiceID b.ClientID b.StartTime).1.1).isSome = true) := by
  cases hp : env.Parse b.StartTime with
  | error e => simp [BookingService.BookAppointment, hp]
  | ok t =>
    simp [BookingService.BookAppointment, hp, World.uuidNew, World.timeNow,
      World.CreateAppointment, main.bookingService, repositories.NewAppointmentRepository,
      repositories.AppointmentRepository.CreateAppointment, Store.keepAll, Store.client,
      Store.insert]

/-- A run of bookings on the store that keeps every record: the stored
appointments of a client grow by the appointments booked for that client, one
per successful call. -/
theorem bookAll_keepAll (env : Env) (c : UUID) (bs : List BookAppointmentRequest) :
    ∀ w : World Store,
      (((main.bookingService Store.keepAll).bookAll env w bs).2.store.appointments.filter
          fun a => decide (a.ClientID = c)) =
        (w.store.appointments.filter fun a => decide (a.ClientID = c)) ++
          bookedFor c bs ((main.bookingService Store.keepAll).bookAll env w bs).1 ∧
      (bookedFor c bs ((main.bookingService Store.keepAll).bookAll env w bs).1).length =
        successesFor c bs ((main.bookingService Store.keepAll).bookAll env w bs).1 := by
  induction bs with
  | nil => intro w; simp [BookingService.bookAll, bookedFor, successesFor]
  | cons b bs ih =>
    intro w
    obtain ⟨h1, h2, h3⟩ := BookAppointment_keepAll env w b
    obtain ⟨ih1, ih2⟩ := ih ((main.bookingService Store.keepAll).BookAppointment env w
        b.ServiceID b.ClientID b.StartTime).2
    simp only [BookingService.bookAll, bookedFor, successesFor]
    rw [ih1, h1, List.filter_append, List.length_append, ih2, List.append_assoc]
    constructor
    · congr 1
      congr 1
      cases hr : ((main.bookingService Store.keepAll).BookAppointment env w
        b.ServiceID b.ClientID b.StartTime).1.1 with
      | none => simp
      | some a =>
        have := h2 a hr
        by_cases hc : b.ClientID = c <;> simp [hc, this]
    · congr 1
      cases hr : ((main.bookingService Store.keepAll).BookAppointment env w
        b.ServiceID b.ClientID b.StartTime).1.1 with
      | none =>
        have : ¬ ((main.bookingService Store.keepAll).BookAppointment env w
          b.ServiceID b.ClientID b.StartTime).1.2 = none := by
          rw [h3, hr]; simp
        simp [this]
      | some a =>
        have : ((main.bookingService Store.keepAll).BookAppointment env w
          b.ServiceID b.ClientID b.StartTime).1.2 = none := by
          rw [h3, hr]; rfl
        by_cases hc : b.ClientID = c
        · subst hc; simp [this]
        · simp [hc]

/-- Claim C8. On the program as wired over the store that keeps every created
record and answers `Find` with the matching records: from a world whose store
holds no appointment of the client, after any run of `BookAppointment` calls
(for this client or others, successful or not), `GetAppointments` for the
client returns no error and the appointments returned by the calls made for
the client, in call order; their number is the number N of those calls that
returned no error; with N = 0 the sequence is empty. -/
theorem GetAppointments_after_bookings (env : Env) (w : World Store) (clientID : UUID)
    (bs : List BookAppointmentRequest)
    (hnone : ∀ a ∈ w.store.appointments, a.ClientID ≠ clientID) :
    ((main.bookingService Store.keepAll).GetAppointments
        ((main.bookingService Store.keepAll).bookAll env w bs).2 clientID).1.2 = none ∧
    ((main.bookingService Store.keepAll).GetAppointments
        ((main.bookingService Store.keepAll).bookAll env w bs).2 clientID).1.1 =
      bookedFor clientID bs ((main.bookingService Store.keepAll).bookAll env w bs).1 ∧
    ((main.bookingService Store.keepAll).GetAppointments
        ((main.bookingService Store.keepAll).bookAll env w bs).2 clientID).1.1.length =
      successesFor clientID bs ((main.bookingService Store.keepAll).bookAll env w bs).1 ∧
    (successesFor clientID bs ((main.bookingService Store.keepAll).bookAll env w bs).1 = 0 →
      ((main.bookingService Store.keepAll).GetAppointments
        ((main.bookingService Store.keepAll).bookAll env w bs).2 clientID).1.1 = []) := by
  obtain ⟨h1, h2⟩ := bookAll_keepAll env clientID bs w
  have h0 : (w.store.appointments.filter fun a => decide (a.ClientID = clientID)) = [] := by
    rw [List.filter_eq_nil_iff]
    intro a ha
    simpa using hnone a ha
  rw [GetAppointments_keepAll, h1, h0]
  refine ⟨rfl, by simp, by simpa using h2, ?_⟩
  intro hz
  rw [← h2] at hz
  simpa using hz

/-- Claim C8 at a concrete input: four calls from the empty store, two of them
successful bookings for client 22, one for client 33 and one for client 22 with
a malformed start time; `GetAppointments` for client 22 returns two
appointments. -/
theorem GetAppointments_after_bookings_witness :
    (∀ a ∈ (World.init Store.empty).store.appointments, a.ClientID ≠ (⟨22⟩ : UUID)) ∧
    successesFor ⟨22⟩
        [⟨⟨11⟩, ⟨22⟩, "2024-03-05T14:30:00Z"⟩, ⟨⟨11⟩, ⟨33⟩, "2024-03-05T15:30:00Z"⟩,
         ⟨⟨12⟩, ⟨22⟩, "not-a-date"⟩, ⟨⟨12⟩, ⟨22⟩, "2024-02-29T09:00:00+01:00"⟩]
        ((main.bookingService Store.keepAll).bookAll Env.sample (World.init Store.empty)
          [⟨⟨11⟩, ⟨22⟩, "2024-03-05T14:30:00Z"⟩, ⟨⟨11⟩, ⟨33⟩, "2024-03-05T15:30:00Z"⟩,
           ⟨⟨12⟩, ⟨22⟩, "not-a-date"⟩, ⟨⟨12⟩, ⟨22⟩, "2024-02-29T09:00:00+01:00"⟩]).1 = 2 ∧
    ((main.bookingService Store.keepAll).GetAppointments
        ((main.bookingService Store.keepAll).bookAll Env.sample (World.init Store.empty)
          [⟨⟨11⟩, ⟨22⟩, "2024-03-05T14:30:00Z"⟩, ⟨⟨11⟩, ⟨33⟩, "2024-03-05T15:30:00Z"⟩,
           ⟨⟨12⟩, ⟨22⟩, "not-a-date"⟩, ⟨⟨12⟩, ⟨22⟩, "2024-02-29T09:00:00+01:00"⟩]).2
        ⟨22⟩).1.1.length = 2 ∧
    ((main.bookingService Store.keepAll).GetAppointments
        ((main.bookingService Store.keepAll).bookAll Env.sample (World.init Store.empty)
          [⟨⟨11⟩, ⟨22⟩, "2024-03-05T14:30:00Z"⟩, ⟨⟨11⟩, ⟨33⟩, "2024-03-05T15:30:00Z"⟩,
           ⟨⟨12⟩, ⟨22⟩, "not-a-date"⟩, ⟨⟨12⟩, ⟨22⟩, "2024-02-29T09:00:00+01:00"⟩]).2
        ⟨22⟩).1.2 = none := by
  have h := GetAppointments_after_bookings Env.sample (World.init Store.empty) ⟨22⟩
    [⟨⟨11⟩, ⟨22⟩, "2024-03-05T14:30:00Z"⟩, ⟨⟨11⟩, ⟨33⟩, "2024-03-05T15:30:00Z"⟩,
     ⟨⟨12⟩, ⟨22⟩, "not-a-date"⟩, ⟨⟨12⟩, ⟨22⟩, "2024-02-29T09:00:00+01:00"⟩]
    (fun a ha => by simp [World.init, Store.empty] at ha)
  exact ⟨fun a ha => by simp [World.init, Store.empty] at ha, rfl, h.2.2.1.trans rfl, h.1⟩

/-! ## Registration: the dependent profile -/

/-- Claim C9 as stated fails: a `Register` call with the role `company`
succeeds while `CreateCompany` fails; the user create call and the
`CreateCompany` call are made, the user is stored, and no company is stored.
The user repository here returns nil for an email without a record; the
company repository is the one of the program, over a storage client whose
`Create` fails on company records. -/
theorem Register_company_not_persisted :
    (authServiceNilOnError Store.refuseProfiles).Register
        Env.sample (World.init Store.empty)
        { Name := "Acme", Email := "acme@example.com", Password := "pw", Role := "company" } =
      ((some { ID := ⟨1⟩, Name := "Acme", Email := "acme@example.com",
               PasswordHash := "$2a$10$XajjQvNhvvRt5GSeFk1xFewgfztj8S.X6GgXsL6950enlhVp7v8Zi", Role := "company",
               CreatedAt := ⟨2024, 1, 15, 10, 0, 0, 0, 0⟩ }, none),
       { store :=
           { users := [{ ID := ⟨1⟩, Name := "Acme", Email := "acme@example.com",
                         PasswordHash := "$2a$10$XajjQvNhvvRt5GSeFk1xFewgfztj8S.X6GgXsL6950enlhVp7v8Zi", Role := "company",
                         CreatedAt := ⟨2024, 1, 15, 10, 0, 0, 0, 0⟩ }],
             companies := [], professionals := [], appointments := [] },
         calls :=
           [Call.GetByEmail "acme@example.com",
            Call.Create { ID := ⟨1⟩, Name := "Acme", Email := "acme@example.com",
                          PasswordHash := "$2a$10$XajjQvNhvvRt5GSeFk1xFewgfztj8S.X6GgXsL6950enlhVp7v8Zi", Role := "company",
                          CreatedAt := ⟨2024, 1, 15, 10, 0, 0, 0, 0⟩ },
            Call.CreateCompany { ID := ⟨2⟩, UserID := ⟨1⟩, Name := "Acme",
                                 CreatedAt := ⟨2024, 1, 15, 10, 0, 1, 0, 0⟩,
                                 User := User.zero }],
         uuids := 2, ticks := 2 }) ∧
    ((authServiceNilOnError Store.refuseProfiles).companyRepo.CreateCompany
        { users := [{ ID := ⟨1⟩, Name := "Acme", Email := "acme@example.com",
                      PasswordHash := "$2a$10$XajjQvNhvvRt5GSeFk1xFewgfztj8S.X6GgXsL6950enlhVp7v8Zi", Role := "company",
                      CreatedAt := ⟨2024, 1, 15, 10, 0, 0, 0, 0⟩ }],
          companies := [], professionals := [], appointments := [] }
        { ID := ⟨2⟩, UserID := ⟨1⟩, Name := "Acme", CreatedAt := ⟨2024, 1, 15, 10, 0, 1, 0, 0⟩,
          User := User.zero }).1 = some "create failed" :=
  ⟨rfl, rfl⟩

/-- Claim C9, amended. For every `Register` call with the role `company` that
returns no error, over every implementation of the repositories: it returns a
user; its repository calls are the lookup, one `Create` on that user and one
`CreateCompany` on a company whose UserID is the user's ID, and no
`CreateProfessional`; the store it leaves is the one `CreateCompany` left,
whose error is not inspected. -/
theorem Register_company_profile {σ : Type} (s : AuthService σ) (env : Env) (w : World σ)
    (req : RegisterRequest)
    (hrole : req.Role = "company")
    (hok : (s.Register env w req).1.2 = none) :
    ∃ (u : User) (c : Company),
      (s.Register env w req).1 = (some u, none) ∧
      (s.Register env w req).2.calls =
        w.calls ++ [Call.GetByEmail req.Email, Call.Create u, Call.CreateCompany c] ∧
      c.UserID = u.ID ∧
      (s.Register env w req).2.store =
        (s.companyRepo.CreateCompany (s.userRepo.Create w.store u).2 c).2 := by
  obtain ⟨h1, _, hashed, h2, h3⟩ := Register_ok_inversion s env w req hok
  have hreg := Register_company_eq s env w req hashed _ _ hrole h1 h2 rfl rfl h3
  rw [hreg]
  exact ⟨_, _, rfl, rfl, rfl, rfl⟩

/-- Claim C9, amended, at a concrete input: over the store that keeps every
record the call succeeds and the company is stored. -/
theorem Register_company_profile_witness :
    ("company" : String) = "company" ∧
    ((authServiceNilOnError Store.keepAll).Register Env.sample (World.init Store.empty)
        { Name := "Acme", Email := "acme@example.com", Password := "pw",
          Role := "company" }).1.2 = none ∧
    ((authServiceNilOnError Store.keepAll).Register Env.sample (World.init Store.empty)
        { Name := "Acme", Email := "acme@example.com", Password := "pw",
          Role := "company" }).2.store.companies =
      [{ ID := ⟨2⟩, UserID := ⟨1⟩, Name := "Acme", CreatedAt := ⟨2024, 1, 15, 10, 0, 1, 0, 0⟩,
         User := User.zero }] ∧
    ∃ (u : User) (c : Company),
      ((authServiceNilOnError Store.keepAll).Register Env.sample (World.init Store.empty)
        { Name := "Acme", Email := "acme@example.com", Password := "pw",
          Role := "company" }).1 = (some u, none) ∧
      ((authServiceNilOnError Store.keepAll).Register Env.sample (World.init Store.empty)
        { Name := "Acme", Email := "acme@example.com", Password := "pw",
          Role := "company" }).2.calls =
        (World.init Store.empty).calls ++
          [Call.GetByEmail "acme@example.com", Call.Create u, Call.CreateCompany c] ∧
      c.UserID = u.ID ∧
      ((authServiceNilOnError Store.keepAll).Register Env.sample (World.init Store.empty)
        { Name := "Acme", Email := "acme@example.com", Password := "pw",
          Role := "company" }).2.store =
        ((authServiceNilOnError Store.keepAll).companyRepo.CreateCompany
          (((authServiceNilOnError Store.keepAll).userRepo.Create
            (World.init Store.empty).store u).2) c).2 :=
  ⟨rfl, rfl, rfl,
   Register_company_profile (authServiceNilOnError Store.keepAll) Env.sample
     (World.init Store.empty)
     { Name := "Acme", Email := "acme@example.com", Password := "pw", Role := "company" }
     rfl rfl⟩

/-- Claim C10 as stated fails: a `Register` call with the role `professional`
succeeds while `CreateProfessional` fails; the user create call and the
`CreateProfessional` call are made, the user is stored, and no professional is
stored. The user repository here returns nil for an email without a record;
the professional repository is the one of the program, over a storage client
whose `Create` fails on professional records. -/
theorem Register_professional_not_persisted :
    (authServiceNilOnError Store.refuseProfiles).Register
        Env.sample (World.init Store.empty)
        { Name := "Bia", Email := "bia@example.com", Password := "pw",
          Role := "professional" } =
      ((some { ID := ⟨1⟩, Name := "Bia", Email := "bia@example.com",
               PasswordHash := "$2a$10$XajjQvNhvvRt5GSeFk1xFewgfztj8S.X6GgXsL6950enlhVp7v8Zi", Role := "professional",
               CreatedAt := ⟨2024, 1, 15, 10, 0, 0, 0, 0⟩ }, none),
       { store :=
           { users := [{ ID := ⟨1⟩, Name := "Bia", Email := "bia@example.com",
                         PasswordHash := "$2a$10$XajjQvNhvvRt5GSeFk1xFewgfztj8S.X6GgXsL6950enlhVp7v8Zi", Role := "professional",
                         CreatedAt := ⟨2024, 1, 15, 10, 0, 0, 0, 0⟩ }],
             companies := [], professionals := [], appointments := [] },
         calls :=
           [Call.GetByEmail "bia@example.com",
            Call.Create { ID := ⟨1⟩, Name := "Bia", Email := "bia@example.com",
                          PasswordHash := "$2a$10$XajjQvNhvvRt5GSeFk1xFewgfztj8S.X6GgXsL6950enlhVp7v8Zi", Role := "professional",
                          CreatedAt := ⟨2024, 1, 15, 10, 0, 0, 0, 0⟩ },
            Call.CreateProfessional
              { ID := ⟨2⟩, UserID := ⟨1⟩, Name := "Bia", CompanyID := none,
                CreatedAt := ⟨2024, 1, 15, 10, 0, 1, 0, 0⟩, User := User.zero,
                Company := none }],
         uuids := 2, ticks := 2 }) ∧
    ((authServiceNilOnError Store.refuseProfiles).profRepo.CreateProfessional
        { users := [{ ID := ⟨1⟩, Name := "Bia", Email := "bia@example.com",
                      PasswordHash := "$2a$10$XajjQvNhvvRt5GSeFk1xFewgfztj8S.X6GgXsL6950enlhVp7v8Zi", Role := "professional",
                      CreatedAt := ⟨2024, 1, 15, 10, 0, 0, 0, 0⟩ }],
          companies := [], professionals := [], appointments := [] }
        { ID := ⟨2⟩, UserID := ⟨1⟩, Name := "Bia", CompanyID := none,
          CreatedAt := ⟨2024, 1, 15, 10, 0, 1, 0, 0⟩, User := User.zero,
          Company := none }).1 = some "create failed" :=
  ⟨rfl, rfl⟩

/-- Claim C10, amended. For every `Register` call with the role `professional`
that returns no error, over every implementation of the repositories: it
returns a user; its repository calls are the lookup, one `Create` on that user
and one `CreateProfessional` on a professional whose UserID is the user's ID
and whose CompanyID is nil, and no `CreateCompany`; the store it leaves is the
one `CreateProfessional` left, whose error is not inspected. -/
theorem Register_professional_profile {σ : Type} (s : AuthService σ) (env : Env)
    (w : World σ) (req : RegisterRequest)
    (hrole : req.Role = "professional")
    (hok : (s.Register env w req).1.2 = none) :
    ∃ (u : User) (p : Professional),
      (s.Register env w req).1 = (some u, none) ∧
      (s.Register env w req).2.calls =
        w.calls ++ [Call.GetByEmail req.Email, Call.Create u, Call.CreateProfessional p] ∧
      p.UserID = u.ID ∧ p.CompanyID = none ∧ p.Company = none ∧
      (s.Register env w req).2.store =
        (s.profRepo.CreateProfessional (s.userRepo.Create w.store u).2 p).2 := by
  obtain ⟨h1, _, hashed, h2, h3⟩ := Register_ok_inversion s env w req hok
  have hreg := Register_professional_eq s env w req hashed _ _ hrole h1 h2 rfl rfl h3
  rw [hreg]
  exact ⟨_, _, rfl, rfl, rfl, rfl, rfl, rfl⟩

/-- Claim C10, amended, at a concrete input: over the store that keeps every
record the call succeeds, one professional without company is stored and no
company. -/
theorem Register_professional_profile_witness :
    ("professional" : String) = "professional" ∧
    ((authServiceNilOnError Store.keepAll).Register Env.sample (World.init Store.empty)
        { Name := "Bia", Email := "bia@example.com", Password := "pw",
          Role := "professional" }).1.2 = none ∧
    ((authServiceNilOnError Store.keepAll).Register Env.sample (World.init Store.empty)
        { Name := "Bia", Email := "bia@example.com", Password := "pw",
          Role := "professional" }).2.store.professionals =
      [{ ID := ⟨2⟩, UserID := ⟨1⟩, Name := "Bia", CompanyID := none,
         CreatedAt := ⟨2024, 1, 15, 10, 0, 1, 0, 0⟩, User := User.zero, Company := none }] ∧
    ((authServiceNilOnError Store.keepAll).Register Env.sample (World.init Store.empty)
        { Name := "Bia", Email := "bia@example.com", Password := "pw",
          Role := "professional" }).2.store.companies = [] ∧
    ∃ (u : User) (p : Professional),
      ((authServiceNilOnError Store.keepAll).Register Env.sample (World.init Store.empty)
        { Name := "Bia", Email := "bia@example.com", Password := "pw",
          Role := "professional" }).1 = (some u, none) ∧
      ((authServiceNilOnError Store.keepAll).Register Env.sample (World.init Store.empty)
        { Name := "Bia", Email := "bia@example.com", Password := "pw",
          Role := "professional" }).2.calls =
        (World.init Store.empty).calls ++
          [Call.GetByEmail "bia@example.com", Call.Create u, Call.CreateProfessional p] ∧
      p.UserID = u.ID ∧ p.CompanyID = none ∧ p.Company = none ∧
      ((authServiceNilOnError Store.keepAll).Register Env.sample (World.init Store.empty)
        { Name := "Bia", Email := "bia@example.com", Password := "pw",
          Role := "professional" }).2.store =
        ((authServiceNilOnError Store.keepAll).profRepo.CreateProfessional
          (((authServiceNilOnError Store.keepAll).userRepo.Create
            (World.init Store.empty).store u).2) p).2 :=
  ⟨rfl, rfl, rfl, rfl,
   Register_professional_profile (authServiceNilOnError Store.keepAll) Env.sample
     (World.init Store.empty)
     { Name := "Bia", Email := "bia@example.com", Password := "pw", Role := "professional" }
     rfl rfl⟩

/-! ## The booking handler -/

/-- Claim C11 as stated fails: a request that binds and whose start time is
`not-a-date` is answered with 500 and the parse error, not with 400; the
handler answers every error of the booking service with 500. -/
theorem Handler_BookAppointment_bad_start_time_500 :
    (main.appointmentHandler Store.keepAll).BookAppointment Env.sample (World.init Store.empty)
        (Except.ok { ServiceID := ⟨11⟩, ClientID := ⟨22⟩, StartTime := "not-a-date" }) =
      ({ code := 500,
         obj := JSONObj.error
           "parsing time \"not-a-date\" as \"2006-01-02T15:04:05Z07:00\": cannot parse \"not-a-date\" as \"2006\"" },
       World.init Store.empty) ∧
    ((main.appointmentHandler Store.keepAll).BookAppointment Env.sample (World.init Store.empty)
        (Except.ok { ServiceID := ⟨11⟩, ClientID := ⟨22⟩, StartTime := "not-a-date" })).1.code ≠
      400 := by
  refine ⟨rfl, ?_⟩
  decide

/-- Claim C11, amended. For every booking handler, environment and world: a
body that fails to bind is answered with 400 and the binding error, the
service not being called; a request whose start time `time.Parse` rejects is
answered with 500 and the parse error, the world unchanged; a request whose
start time parses is answered with 500 and the error of `CreateAppointment`
when that call fails, and with 200 carrying the created appointment when it
succeeds. -/
theorem Handler_BookAppointment_status {σ : Type} (h : appointment_handler.Handler σ) (env : Env) (w : World σ)
    (req : BookAppointmentRequest) :
    (∀ err : Error,
      h.BookAppointment env w (Except.error err) =
        ({ code := 400, obj := JSONObj.error err }, w)) ∧
    (∀ err : Error, env.Parse req.StartTime = Except.error err →
      h.BookAppointment env w (Except.ok req) =
        ({ code := 500, obj := JSONObj.error err }, w)) ∧
    (∀ (startTime : Time) (appt : Appointment),
      env.Parse req.StartTime = Except.ok startTime →
      appt = { ID := env.uuidNew w.uuids, ClientID := req.ClientID, ProfessionalID := UUID.Nil,
               ServiceID := req.ServiceID, StartTime := startTime, EndTime := Time.zero,
               Status := "scheduled", CreatedAt := env.timeNow w.ticks } →
      (∀ err : Error,
        (h.bookingService.appointmentRepo.CreateAppointment w.store appt).1 = some err →
        (h.BookAppointment env w (Except.ok req)).1 =
          { code := 500, obj := JSONObj.error err }) ∧
      ((h.bookingService.appointmentRepo.CreateAppointment w.store appt).1 = none →
        (h.BookAppointment env w (Except.ok req)).1 =
          { code := 200, obj := JSONObj.appointment (some appt) })) := by
  refine ⟨fun err => rfl, ?_, ?_⟩
  · intro err hbad
    simp [appointment_handler.Handler.BookAppointment, BookingService.BookAppointment, hbad,
      StatusInternalServerError]
  · intro startTime appt hgood happt
    subst happt
    constructor
    · intro err hfail
      simp [appointment_handler.Handler.BookAppointment, BookingService.BookAppointment, hgood, World.uuidNew,
        World.timeNow, World.CreateAppointment, hfail, StatusInternalServerError]
    · intro hok
      simp [appointment_handler.Handler.BookAppointment, BookingService.BookAppointment, hgood, World.uuidNew,
        World.timeNow, World.CreateAppointment, hok, StatusOK]

/-- Claim C11, amended, at concrete inputs on the program as wired: a malformed
start time (500), a valid request over a storage client that refuses
appointments (500), the same request over the store that keeps every record
(200 with the appointment), and a body that does not bind (400). -/
theorem Handler_BookAppointment_status_witness :
    ((main.appointmentHandler Store.keepAll).BookAppointment Env.sample (World.init Store.empty)
        (Except.ok { ServiceID := ⟨11⟩, ClientID := ⟨22⟩, StartTime := "not-a-date" })).1.code =
      500 ∧
    ((main.appointmentHandler Store.refuseAppointments).BookAppointment Env.sample
        (World.init Store.empty)
        (Except.ok { ServiceID := ⟨11⟩, ClientID := ⟨22⟩,
                     StartTime := "2024-03-05T14:30:00Z" })).1 =
      { code := 500, obj := JSONObj.error "create failed" } ∧
    ((main.appointmentHandler Store.keepAll).BookAppointment Env.sample (World.init Store.empty)
        (Except.ok { ServiceID := ⟨11⟩, ClientID := ⟨22⟩,
                     StartTime := "2024-03-05T14:30:00Z" })).1 =
      { code := 200,
        obj := JSONObj.appointment
          (some { ID := ⟨1⟩, ClientID := ⟨22⟩, ProfessionalID := UUID.Nil, ServiceID := ⟨11⟩,
                  StartTime := ⟨2024, 3, 5, 14, 30, 0, 0, 0⟩, EndTime := Time.zero,
                  Status := "scheduled", CreatedAt := ⟨2024, 1, 15, 10, 0, 0, 0, 0⟩ }) } ∧
    ((main.appointmentHandler Store.keepAll).BookAppointment Env.sample (World.init Store.empty)
        (Except.error "invalid character")).1 =
      { code := 400, obj := JSONObj.error "invalid character" } :=
  ⟨congrArg (fun r => r.1.code)
     ((Handler_BookAppointment_status (main.appointmentHandler Store.keepAll) Env.sample
        (World.init Store.empty)
        { ServiceID := ⟨11⟩, ClientID := ⟨22⟩, StartTime := "not-a-date" }).2.1 _ rfl),
   ((Handler_BookAppointment_status (main.appointmentHandler Store.refuseAppointments)
        Env.sample (World.init Store.empty)
        { ServiceID := ⟨11⟩, ClientID := ⟨22⟩, StartTime := "2024-03-05T14:30:00Z" }).2.2
      _ _ rfl rfl).1 _ rfl,
   ((Handler_BookAppointment_status (main.appointmentHandler Store.keepAll)
        Env.sample (World.init Store.empty)
        { ServiceID := ⟨11⟩, ClientID := ⟨22⟩, StartTime := "2024-03-05T14:30:00Z" }).2.2
      _ _ rfl rfl).2 rfl,
   congrArg Prod.fst
     ((Handler_BookAppointment_status (main.appointmentHandler Store.keepAll) Env.sample
        (World.init Store.empty)
        { ServiceID := ⟨11⟩, ClientID := ⟨22⟩, StartTime := "not-a-date" }).1
      "invalid character")⟩

/-! ## Registration on the program as wired, and without atomicity -/

/-- Claim C12. For every storage client, store and email,
`repositories.UserRepository.GetByEmail` returns a non-nil pointer, to the
content `First` left in its destination, together with whatever error `First`
reported; on the empty in-memory store it returns the zero user and
`record not found`. Hence for every request, environment and world, `Register`
on the program as wired returns a nil user and the error `usuário já existe`,
and its only repository call is the lookup: `Create` is not called and the
store is unchanged. -/
theorem Register_wired_always_duplicate {σ : Type} (db : DBClient σ) (env : Env)
    (w : World σ) (req : RegisterRequest) (st : σ) (email : String) :
    repositories.UserRepository.GetByEmail db st email =
      (some (db.FirstUser st (Cond.str "email = ?" email)).1,
       (db.FirstUser st (Cond.str "email = ?" email)).2) ∧
    (repositories.UserRepository.GetByEmail db st email).1 ≠ none ∧
    repositories.UserRepository.GetByEmail Store.keepAll Store.empty email =
      (some User.zero, some "record not found") ∧
    (main.authService db).Register env w req =
      ((none, some "usuário já existe"),
       { w with calls := w.calls ++ [Call.GetByEmail req.Email] }) := by
  refine ⟨rfl, by simp [repositories.UserRepository.GetByEmail], rfl, ?_⟩
  exact Register_of_existing (main.authService db) env w req _ (wired_GetByEmail_some db _ _)

/-- Claim C13. For every implementation of the repositories, when the lookup
returns nil, hashing succeeds and the user create call succeeds: with the role
`company` and a failing `CreateCompany`, and with the role `professional` and
a failing `CreateProfessional`, `Register` returns the created user and a nil
error; its repository calls end with the failed profile call, so nothing
undoes the user create; the store is the one the failed call left, which is
the store the user create left whenever the failed call stored nothing. -/
theorem Register_profile_failure_keeps_user {σ : Type} (s : AuthService σ) (env : Env)
    (w : World σ) (req : RegisterRequest) (hashed : String) (u : User) (c : Company)
    (p : Professional)
    (hlookup : (s.userRepo.GetByEmail w.store req.Email).1 = none)
    (hhash : env.GenerateFromPassword req.Password = Except.ok hashed)
    (hu : u = { ID := env.uuidNew w.uuids, Name := req.Name, Email := req.Email,
                PasswordHash := hashed, Role := req.Role, CreatedAt := env.timeNow w.ticks })
    (hc : c = { ID := env.uuidNew (w.uuids + 1), UserID := env.uuidNew w.uuids, Name := req.Name,
                CreatedAt := env.timeNow (w.ticks + 1), User := User.zero })
    (hp : p = { ID := env.uuidNew (w.uuids + 1), UserID := env.uuidNew w.uuids, Name := req.Name,
                CompanyID := none, CreatedAt := env.timeNow (w.ticks + 1), User := User.zero,
                Company := none })
    (hcreate : (s.userRepo.Create w.store u).1 = none) :
    (req.Role = "company" →
      ∀ err : Error,
        (s.companyRepo.CreateCompany (s.userRepo.Create w.store u).2 c).1 = some err →
        (s.Register env w req).1 = (some u, none) ∧
        (s.Register env w req).2.calls =
          w.calls ++ [Call.GetByEmail req.Email, Call.Create u, Call.CreateCompany c] ∧
        (s.Register env w req).2.store =
          (s.companyRepo.CreateCompany (s.userRepo.Create w.store u).2 c).2 ∧
        ((s.companyRepo.CreateCompany (s.userRepo.Create w.store u).2 c).2 =
            (s.userRepo.Create w.store u).2 →
          (s.Register env w req).2.store = (s.userRepo.Create w.store u).2)) ∧
    (req.Role = "professional" →
      ∀ err : Error,
        (s.profRepo.CreateProfessional (s.userRepo.Create w.store u).2 p).1 = some err →
        (s.Register env w req).1 = (some u, none) ∧
        (s.Register env w req).2.calls =
          w.calls ++ [Call.GetByEmail req.Email, Call.Create u, Call.CreateProfessional p] ∧
        (s.Register env w req).2.store =
          (s.profRepo.CreateProfessional (s.userRepo.Create w.store u).2 p).2 ∧
        ((s.profRepo.CreateProfessional (s.userRepo.Create w.store u).2 p).2 =
            (s.userRepo.Create w.store u).2 →
          (s.Register env w req).2.store = (s.userRepo.Create w.store u).2)) := by
  constructor
  · intro hrole err _
    rw [Register_company_eq s env w req hashed u c hrole hlookup hhash hu hc hcreate]
    exact ⟨rfl, rfl, rfl, fun h => h⟩
  · intro hrole err _
    rw [Register_professional_eq s env w req hashed u p hrole hlookup hhash hu hp hcreate]
    exact ⟨rfl, rfl, rfl, fun h => h⟩

/-- Claim C13 at concrete inputs, over a storage client that refuses company
and professional records: for both roles `Register` returns the user, and the
store holds that user and no company or professional. -/
theorem Register_profile_failure_keeps_user_witness :
    ((authServiceNilOnError Store.refuseProfiles).userRepo.GetByEmail
        (World.init Store.empty).store "acme@example.com").1 = none ∧
    Env.sample.GenerateFromPassword "pw" = Except.ok "$2a$10$XajjQvNhvvRt5GSeFk1xFewgfztj8S.X6GgXsL6950enlhVp7v8Zi" ∧
    ((authServiceNilOnError Store.refuseProfiles).Register Env.sample (World.init Store.empty)
        { Name := "Acme", Email := "acme@example.com", Password := "pw",
          Role := "company" }).1 =
      (some { ID := ⟨1⟩, Name := "Acme", Email := "acme@example.com",
              PasswordHash := "$2a$10$XajjQvNhvvRt5GSeFk1xFewgfztj8S.X6GgXsL6950enlhVp7v8Zi", Role := "company",
              CreatedAt := ⟨2024, 1, 15, 10, 0, 0, 0, 0⟩ }, none) ∧
    ((authServiceNilOnError Store.refuseProfiles).Register Env.sample (World.init Store.empty)
        { Name := "Acme", Email := "acme@example.com", Password := "pw",
          Role := "company" }).2.store =
      { users := [{ ID := ⟨1⟩, Name := "Acme", Email := "acme@example.com",
                    PasswordHash := "$2a$10$XajjQvNhvvRt5GSeFk1xFewgfztj8S.X6GgXsL6950enlhVp7v8Zi", Role := "company",
                    CreatedAt := ⟨2024, 1, 15, 10, 0, 0, 0, 0⟩ }],
        companies := [], professionals := [], appointments := [] } ∧
    ((authServiceNilOnError Store.refuseProfiles).Register Env.sample (World.init Store.empty)
        { Name := "Bia", Email := "bia@example.com", Password := "pw",
          Role := "professional" }).1 =
      (some { ID := ⟨1⟩, Name := "Bia", Email := "bia@example.com",
              PasswordHash := "$2a$10$XajjQvNhvvRt5GSeFk1xFewgfztj8S.X6GgXsL6950enlhVp7v8Zi", Role := "professional",
              CreatedAt := ⟨2024, 1, 15, 10, 0, 0, 0, 0⟩ }, none) ∧
    ((authServiceNilOnError Store.refuseProfiles).Register Env.sample (World.init Store.empty)
        { Name := "Bia", Email := "bia@example.com", Password := "pw",
          Role := "professional" }).2.store =
      { users := [{ ID := ⟨1⟩, Name := "Bia", Email := "bia@example.com",
                    PasswordHash := "$2a$10$XajjQvNhvvRt5GSeFk1xFewgfztj8S.X6GgXsL6950enlhVp7v8Zi", Role := "professional",
                    CreatedAt := ⟨2024, 1, 15, 10, 0, 0, 0, 0⟩ }],
        companies := [], professionals := [], appointments := [] } := by
  have hco := (Register_profile_failure_keeps_user (authServiceNilOnError Store.refuseProfiles)
    Env.sample (World.init Store.empty)
    { Name := "Acme", Email := "acme@example.com", Password := "pw", Role := "company" }
    "$2a$10$XajjQvNhvvRt5GSeFk1xFewgfztj8S.X6GgXsL6950enlhVp7v8Zi" _ _ _ rfl rfl rfl rfl rfl rfl).1 rfl "create failed" rfl
  have hpr := (Register_profile_failure_keeps_user (authServiceNilOnError Store.refuseProfiles)
    Env.sample (World.init Store.empty)
    { Name := "Bia", Email := "bia@example.com", Password := "pw", Role := "professional" }
    "$2a$10$XajjQvNhvvRt5GSeFk1xFewgfztj8S.X6GgXsL6950enlhVp7v8Zi" _ _ _ rfl rfl rfl rfl rfl rfl).2 rfl "create failed" rfl
  exact ⟨rfl, rfl, hco.1, hco.2.2.2 rfl, hpr.1, hpr.2.2.2 rfl⟩

end YouMeet
